import Mathlib

/-!
Verification development for the kilocode-ml-service comment-generation
pipeline.  Python strings are modelled as `List Char`; the effectful parts
of the pipeline (index loading, embedding, generative-model calls) are
modelled by explicit state/environment passing where external backends are
oracles supplied through an `Env` record and every external call is
recorded as an event in the state.  Machine floats appear only in
similarity scores (kept abstract as rationals supplied by the oracle) and
in two fixed threshold comparisons in the Twitter intent detector, where
the IEEE-754 double nearest to 0.3 is used verbatim as an exact rational.
-/

namespace KilocodeSpec

/-- Python-style string: a list of characters (one element per code point). -/
abbrev Str := List Char

/-- Whitespace characters stripped by Python `str.strip()` / matched by
regex `\s` (ASCII range; all inputs considered here are ASCII). -/
def isPySpace (c : Char) : Bool :=
  c = ' ' || c = '\t' || c = '\n' || c = '\r' || c = '\x0b' || c = '\x0c'

/-- Python `str.strip()`: drop leading and trailing whitespace. -/
def pyStrip (s : Str) : Str :=
  ((s.dropWhile isPySpace).reverse.dropWhile isPySpace).reverse

/-- Python `str.lower()` (ASCII). -/
def pyLower (s : Str) : Str := s.map Char.toLower

/-- Test whether `pre` is a prefix of `s` (Python `s.startswith(pre)`). -/
def startsWithL (pre s : Str) : Bool :=
  match pre, s with
  | [], _ => true
  | _ :: _, [] => false
  | p :: ps, c :: cs => p = c && startsWithL ps cs

/-- Python `needle in haystack` substring test. -/
def containsSub (hay needle : Str) : Bool :=
  match hay with
  | [] => needle.isEmpty
  | _ :: t => startsWithL needle hay || containsSub t needle

/-- Worker of `pySplitWs`: `cur` holds the characters of the current
word in reverse; a whitespace character closes the word (if any), and a
trailing word is emitted at the end. -/
def pySplitWsGo (cur : Str) (s : Str) : List Str :=
  match s with
  | [] => if cur.isEmpty then [] else [cur.reverse]
  | c :: rest =>
    if isPySpace c then
      if cur.isEmpty then pySplitWsGo [] rest
      else cur.reverse :: pySplitWsGo [] rest
    else pySplitWsGo (c :: cur) rest

/-- Python `str.split()` with no argument: maximal non-whitespace runs. -/
def pySplitWs (s : Str) : List Str := pySplitWsGo [] s

/-- Python `sep.join(parts)`. -/
def joinSep (sep : Str) : List Str → Str
  | [] => []
  | [x] => x
  | x :: y :: xs => x ++ sep ++ joinSep sep (y :: xs)

/-- Decimal rendering of a natural number, as used by Python f-strings. -/
def natStr (n : Nat) : Str := (toString n).data

/-- Python `str.replace(lit, repl)` (all non-overlapping occurrences, left
to right).  All call sites in the source use a non-empty `lit`; for an
empty `lit` this embedding returns the string unchanged.  The worker
consumes one character per step; `skip` counts the remaining characters
of a just-replaced occurrence. -/
def replaceAllGo (lit repl : Str) (skip : Nat) (s : Str) : Str :=
  match s, skip with
  | [], _ => []
  | _ :: rest, Nat.succ k => replaceAllGo lit repl k rest
  | c :: rest, 0 =>
    if startsWithL lit (c :: rest) then
      repl ++ replaceAllGo lit repl (lit.length - 1) rest
    else
      c :: replaceAllGo lit repl 0 rest

def replaceAll (lit repl : Str) (s : Str) : Str :=
  if lit = [] then s else replaceAllGo lit repl 0 s

/-- Regex `re.sub(p+, rep, s)` for a single-character class `p`: every
maximal run of characters satisfying `p` is replaced by the single
character `rep`.  The `inRun` flag records whether the previous character
belonged to a run. -/
def collapseRunsGo (p : Char → Bool) (rep : Char) (inRun : Bool) (s : Str) : Str :=
  match s with
  | [] => []
  | c :: rest =>
    if p c then
      (if inRun then [] else [rep]) ++ collapseRunsGo p rep true rest
    else
      c :: collapseRunsGo p rep false rest

/-- Replace every maximal run of `p`-characters by the single character
`rep` (regex `re.sub(r'[p]+', rep, s)`). -/
def collapseRuns (p : Char → Bool) (rep : Char) (s : Str) : Str :=
  collapseRunsGo p rep false s

mutual

/-- Segment collector for `splitRuns`: accumulating the current segment
(in reverse). -/
def splitRunsSeg (p : Char → Bool) (acc : Str) (s : Str) : List Str :=
  match s with
  | [] => [acc.reverse]
  | c :: rest =>
    if p c then acc.reverse :: splitRunsSkip p rest
    else splitRunsSeg p (c :: acc) rest

/-- Separator-run skipper for `splitRuns`: consuming the rest of a
separator run; a run ending the string contributes a trailing empty
segment, exactly as `re.split` does. -/
def splitRunsSkip (p : Char → Bool) (s : Str) : List Str :=
  match s with
  | [] => [[]]
  | c :: rest =>
    if p c then splitRunsSkip p rest
    else splitRunsSeg p [c] rest

end

/-- Regex `re.split(r'[…]+', s)` semantics for a single-character class:
the segments between maximal separator runs, leading/trailing empty
segments included. -/
def splitRuns (p : Char → Bool) (s : Str) : List Str := splitRunsSeg p [] s

/-- Word characters of regex `\w` (ASCII): letters, digits, underscore. -/
def isWordChar (c : Char) : Bool := c.isAlpha || c.isDigit || c = '_'

mutual

/-- Separator state of `wordTokens`: `sep` holds the separator run read
so far (in reverse); a trailing separator without a following word is
dropped. -/
def wordTokensSep (sep : Str) (s : Str) : List (Str × Str) :=
  match s with
  | [] => []
  | c :: rest =>
    if isWordChar c then wordTokensWord sep [c] rest
    else wordTokensSep (c :: sep) rest

/-- Word state of `wordTokens`: `w` holds the word run read so far (in
reverse); a non-word character emits the `(separator, word)` token and
starts the next separator. -/
def wordTokensWord (sep w : Str) (s : Str) : List (Str × Str) :=
  match s with
  | [] => [(sep.reverse, w.reverse)]
  | c :: rest =>
    if isWordChar c then wordTokensWord sep (c :: w) rest
    else (sep.reverse, w.reverse) :: wordTokensSep [c] rest

end

/-- Tokenize a string into `(separator, word)` pairs, where each word is a
maximal run of `\w` characters and each separator is the (possibly empty)
run of non-word characters preceding it.  A trailing separator without a
following word is dropped.  This carries exactly the information needed to
evaluate the `\b`-delimited regexes of the source. -/
def wordTokens (s : Str) : List (Str × Str) := wordTokensSep [] s

/-- Maximal `\w`-runs of a string (the words seen by `\b\w{k,}\b`). -/
def wordRuns (s : Str) : List Str := (wordTokens s).map Prod.snd

/-- Worker of `dedupFirst`: `seen` holds the elements already kept. -/
def dedupFirstGo (seen : List Str) (l : List Str) : List Str :=
  match l with
  | [] => []
  | x :: xs =>
    if x ∈ seen then dedupFirstGo seen xs
    else x :: dedupFirstGo (x :: seen) xs

/-- Deduplicate a list keeping the first occurrence of each element.  Used
to model Python `set(...)` where only cardinality or membership matters,
and `list(set(...))` where CPython leaves the order unspecified (the
claims settled here never depend on that order). -/
def dedupFirst (l : List Str) : List Str := dedupFirstGo [] l

/-- Python `str.title()` (ASCII): uppercase every letter that follows a
non-letter, lowercase every other letter. -/
def pyTitleGo (prevAlpha : Bool) (s : Str) : Str :=
  match s with
  | [] => []
  | c :: rest =>
    if c.isAlpha then
      (if prevAlpha then c.toLower else c.toUpper) :: pyTitleGo true rest
    else
      c :: pyTitleGo false rest

/-- Python `str.title()`. -/
def pyTitle (s : Str) : Str := pyTitleGo false s

/-- First index at which `lit` occurs as a substring of `s`
(`str.find`-style helper used for regex scanning). -/
def findSubFrom (lit : Str) (s : Str) : Option Nat :=
  match s with
  | [] => if lit = [] then some 0 else none
  | _ :: t =>
    if startsWithL lit s then some 0
    else (findSubFrom lit t).map (· + 1)

/-- Worker of `replaceLinks`: consumes one character per step; `skip`
counts the remaining characters of a just-replaced link. -/
def replaceLinksGo (skip : Nat) (s : Str) : Str :=
  match s, skip with
  | [], _ => []
  | _ :: rest, Nat.succ k => replaceLinksGo k rest
  | c :: rest, 0 =>
    if startsWithL "https://".data (c :: rest) || startsWithL "http://".data (c :: rest) then
      let pl := if startsWithL "https://".data (c :: rest) then 8 else 7
      let link := ((c :: rest).drop pl).takeWhile (fun c => !isPySpace c)
      if link = [] then c :: replaceLinksGo 0 rest
      else "[LINK]".data ++ replaceLinksGo (pl - 1 + link.length) rest
    else c :: replaceLinksGo 0 rest

/-- Regex `re.sub(r'http[s]?://\S+', '[LINK]', s)` from
`text_utils.clean_text`: each maximal `http(s)://`-plus-nonspace run is
replaced by the literal `[LINK]`. -/
def replaceLinks (s : Str) : Str := replaceLinksGo 0 s

/-- Three backticks, the code-fence delimiter of `clean_text`. -/
def fenceStr : Str := ['\x60', '\x60', '\x60']

/-- Worker of `replaceCodeBlocks`: consumes one character per step;
`skip` counts the remaining characters of a just-replaced block. -/
def replaceCodeBlocksGo (skip : Nat) (s : Str) : Str :=
  match s, skip with
  | [], _ => []
  | _ :: rest, Nat.succ k => replaceCodeBlocksGo k rest
  | c :: rest, 0 =>
    if startsWithL fenceStr (c :: rest) then
      match findSubFrom fenceStr ((c :: rest).drop 503) with
      | some k => "[CODE_BLOCK]".data ++ replaceCodeBlocksGo (505 + k) rest
      | none => c :: replaceCodeBlocksGo 0 rest
    else c :: replaceCodeBlocksGo 0 rest

/-- Regex `re.sub(r'(\x60\x60\x60[\s\S]{500,}?\x60\x60\x60)', '[CODE_BLOCK]', s)`
from `text_utils.clean_text`: a fenced block whose body has at least 500
characters (non-greedy, so the earliest closing fence at distance >= 500)
is replaced by `[CODE_BLOCK]`. -/
def replaceCodeBlocks (s : Str) : Str := replaceCodeBlocksGo 0 s

/-- Embedding of `text_utils.clean_text(text, max_length)`: collapse
whitespace runs to a single space, replace URLs by `[LINK]`, drop
non-ASCII characters, replace huge fenced code blocks by `[CODE_BLOCK]`,
strip, and hard-cap the length. -/
def clean_text (text : Str) (max_length : Nat) : Str :=
  if text = [] then []
  else
    let t1 := collapseRuns isPySpace ' ' text
    let t2 := replaceLinks t1
    let t3 := t2.filter (fun c => c.val ≤ 127)
    let t4 := replaceCodeBlocks t3
    let t5 := pyStrip t4
    if max_length < t5.length then t5.take max_length else t5

/-- Python `s.rfind(c)`: index of the last occurrence of `c`, or `-1`. -/
def rfindChar (s : Str) (c : Char) : Int :=
  match s.reverse.findIdx? (fun x => x = c) with
  | some i => (s.length : Int) - 1 - i
  | none => -1

/-- End position of the chunk starting at `start` in
`text_utils.chunk_text`: `start + chunk_chars`, moved back to just after
the last sentence-ending punctuation of the window when one occurs in its
final 100 characters (and the window does not already reach the end of
the text). -/
def chunkEndPos (text : Str) (chunk_chars start : Nat) : Nat :=
  let end0 := start + chunk_chars
  if end0 < text.length then
    let chunk_end := (text.drop start).take chunk_chars
    let last_period := max (rfindChar chunk_end '.')
      (max (rfindChar chunk_end '!') (rfindChar chunk_end '?'))
    if (chunk_chars : Int) - 100 < last_period then start + last_period.toNat + 1
    else end0
  else end0

/-- One iteration of the `chunk_text` loop body: the next loop start
(`end - overlap`) and the updated chunk list (the stripped slice is
appended when non-empty). -/
def chunkStep (text : Str) (chunk_chars overlap start : Nat) (acc : List Str) :
    Nat × List Str :=
  let endF := chunkEndPos text chunk_chars start
  let chunk := pyStrip ((text.drop start).take (endF - start))
  (endF - overlap, if chunk = [] then acc else acc ++ [chunk])

/-- Loop of `text_utils.chunk_text`.  `fuel` bounds the number of
iterations; `none` models non-termination of the source loop (which can
only happen for degenerate parameter choices never used by the
repository; see `chunk_text_spec`). -/
def chunkLoop (text : Str) (chunk_chars overlap max_chunks : Nat) (fuel : Nat)
    (start : Nat) (acc : List Str) : Option (List Str) :=
  match fuel with
  | 0 => none
  | fuel + 1 =>
    if start < text.length ∧ acc.length < max_chunks then
      if text.length ≤ (chunkStep text chunk_chars overlap start acc).1 then
        some (chunkStep text chunk_chars overlap start acc).2
      else
        chunkLoop text chunk_chars overlap max_chunks fuel
          (chunkStep text chunk_chars overlap start acc).1
          (chunkStep text chunk_chars overlap start acc).2
    else some acc

/-- Embedding of `text_utils.chunk_text(text, chunk_chars, overlap,
max_chunks)`.  The result is `some chunks` when the source loop
terminates within `text.length + 1` iterations; for the parameters used
by the repository (`chunk_chars = 1000`, `overlap = 150`) this always
holds (theorem `chunk_text_spec`). -/
def chunk_text (text : Str) (chunk_chars overlap max_chunks : Nat) : Option (List Str) :=
  if text = [] then some []
  else if text.length ≤ chunk_chars then some [text]
  else chunkLoop text chunk_chars overlap max_chunks (text.length + 1) 0 []

/-- Word of shape `[A-Z][a-zA-Z]+`: an all-letter word of length at least
2 starting with an uppercase letter. -/
def upperInitialAlpha (w : Str) : Bool :=
  match w with
  | [] => false
  | c :: rest => c.isUpper && !rest.isEmpty && rest.all Char.isAlpha

mutual

/-- Scanner state of `techTermsSpace`: looking for a capitalized word. -/
def techTermsSpaceMain (ts : List (Str × Str)) : List Str :=
  match ts with
  | [] => []
  | (_, w) :: rest =>
    if upperInitialAlpha w then techTermsSpacePair w rest
    else techTermsSpaceMain rest

/-- Scanner state of `techTermsSpace`: a capitalized word `w` was just
read; try to extend it with a whitespace-joined second capitalized word
(greedy), else emit `w` alone and rescan from the next token. -/
def techTermsSpacePair (w : Str) (ts : List (Str × Str)) : List Str :=
  match ts with
  | [] => [w]
  | (sep2, w2) :: rest2 =>
    if !sep2.isEmpty && sep2.all isPySpace && upperInitialAlpha w2 then
      (w ++ sep2 ++ w2) :: techTermsSpaceMain rest2
    else
      w :: (if upperInitialAlpha w2 then techTermsSpacePair w2 rest2
            else techTermsSpaceMain rest2)

end

/-- Matches of regex `\b([A-Z][a-zA-Z]+(?:\s+[A-Z][a-zA-Z]+)?)\b`
(`_extract_key_points`) over the token stream: a capitalized all-letter
word, optionally joined to a following capitalized all-letter word by
pure whitespace; matches are non-overlapping, left to right, greedy. -/
def techTermsSpace (ts : List (Str × Str)) : List Str := techTermsSpaceMain ts

mutual

/-- Scanner state of `techTermsDot`: looking for a capitalized word. -/
def techTermsDotMain (ts : List (Str × Str)) : List Str :=
  match ts with
  | [] => []
  | (_, w) :: rest =>
    if upperInitialAlpha w then techTermsDotPair w rest
    else techTermsDotMain rest

/-- Scanner state of `techTermsDot`: a capitalized word `w` was just
read; try to extend it with a dot-joined all-letter word, else emit `w`
alone and rescan from the next token. -/
def techTermsDotPair (w : Str) (ts : List (Str × Str)) : List Str :=
  match ts with
  | [] => [w]
  | (sep2, w2) :: rest2 =>
    if sep2 = ['.'] && !w2.isEmpty && w2.all Char.isAlpha then
      (w ++ '.' :: w2) :: techTermsDotMain rest2
    else
      w :: (if upperInitialAlpha w2 then techTermsDotPair w2 rest2
            else techTermsDotMain rest2)

end

/-- Matches of regex `\b([A-Z][a-zA-Z]+(?:\.?[a-zA-Z]+)?)\b`
(`_generate_enhanced_fallback`) over the token stream: a capitalized
all-letter word, optionally joined to a following all-letter word by a
single dot (as in `Node.js`). -/
def techTermsDot (ts : List (Str × Str)) : List Str := techTermsDotMain ts

/-- Matches of regex `([^.!?]*\?)` (`_extract_key_points`): maximal
punctuation-free runs ending in a question mark. -/
def findQuestionsGo (acc : Str) (s : Str) : List Str :=
  match s with
  | [] => []
  | c :: rest =>
    if c = '?' then (acc.reverse ++ ['?']) :: findQuestionsGo [] rest
    else if c = '.' || c = '!' then findQuestionsGo [] rest
    else findQuestionsGo (c :: acc) rest

/-- All matches of `([^.!?]*\?)` in `s`. -/
def findQuestions (s : Str) : List Str := findQuestionsGo [] s

/-- Leftmost match of regex `(lit[^.]+)` (a literal followed by at least
one non-dot character, greedy), as used by the problem patterns of
`_extract_key_points`. -/
def scanLitNonDot (lit : Str) (s : Str) : Option Str :=
  match s with
  | [] => none
  | c :: rest =>
    if startsWithL lit (c :: rest) then
      let body := ((c :: rest).drop lit.length).takeWhile (fun c => c ≠ '.')
      if body = [] then scanLitNonDot lit rest
      else some (lit ++ body)
    else scanLitNonDot lit rest

/-- Tail matcher for regex `[s]? (?:when|with|in) [^.]+` after a base
word: tries the connectors in the regex alternation order. -/
def connTail (t : Str) : Option Str :=
  let tryOne := fun (conn : Str) =>
    if startsWithL conn t then
      let body := (t.drop conn.length).takeWhile (fun c => c ≠ '.')
      if body = [] then none else some (conn ++ body)
    else none
  match tryOne " when ".data with
  | some m => some m
  | none =>
    match tryOne " with ".data with
    | some m => some m
    | none => tryOne " in ".data

/-- Leftmost match of regex `(base[s]? (?:when|with|in) [^.]+)`, the greedy
optional plural tried first with backtracking, as in the `error`/`issue`
problem patterns of `_extract_key_points`. -/
def scanProblemConn (base : Str) (s : Str) : Option Str :=
  match s with
  | [] => none
  | c :: rest =>
    if startsWithL base (c :: rest) then
      let afterBase := (c :: rest).drop base.length
      let attempt :=
        match afterBase with
        | 's' :: t2 =>
          match connTail t2 with
          | some m => some (base ++ 's' :: m)
          | none => (connTail afterBase).map (fun m => base ++ m)
        | _ => (connTail afterBase).map (fun m => base ++ m)
      match attempt with
      | some m => some m
      | none => scanProblemConn base rest
    else scanProblemConn base rest

/-- Worker of `scanAlts`: consumes one character per step; `skip` counts
the remaining characters of a just-matched alternative. -/
def scanAltsGo (alts : List Str) (skip : Nat) (s : Str) : List Str :=
  match s, skip with
  | [], _ => []
  | _ :: rest, Nat.succ k => scanAltsGo alts k rest
  | c :: rest, 0 =>
    match alts.find? (fun a => startsWithL a (c :: rest)) with
    | some a =>
      if a = [] then scanAltsGo alts 0 rest
      else a :: scanAltsGo alts (a.length - 1) rest
    | none => scanAltsGo alts 0 rest

/-- All matches of an alternation of literal words, non-overlapping and
left to right (regex `(a|b|…)` under `re.findall`).  Alternatives are
tried in list order at each position. -/
def scanAlts (alts : List Str) (s : Str) : List Str := scanAltsGo alts 0 s

/-- Alternative-list matcher at a fixed position for regex
`(trying to|want to|need to|how to|can't|cannot|unable to) (\w+)`:
returns the second capture group (the word after the verb phrase). -/
def actionAtAlts (alts : List Str) (t : Str) : Option Str :=
  match alts with
  | [] => none
  | a :: as =>
    if startsWithL a t then
      match t.drop a.length with
      | ' ' :: u =>
        let w := u.takeWhile isWordChar
        if w = [] then actionAtAlts as t else some w
      | _ => actionAtAlts as t
    else actionAtAlts as t

/-- The verb-phrase alternatives of the action pattern in
`_generate_enhanced_fallback`, in regex order. -/
def actionAltList : List Str :=
  ["trying to".data, "want to".data, "need to".data, "how to".data,
   "can\x27t".data, "cannot".data, "unable to".data]

/-- Leftmost match (`re.search`) of the action pattern of
`_generate_enhanced_fallback`, returning capture group 2. -/
def scanAction (s : Str) : Option Str :=
  match s with
  | [] => none
  | c :: rest =>
    match actionAtAlts actionAltList (c :: rest) with
    | some w => some w
    | none => scanAction rest

/-- Quality constants of `generation/gemini_generator.py`. -/
def MIN_COMMENT_LENGTH : Nat := 200

/-- Maximum accepted comment length (characters). -/
def MAX_COMMENT_LENGTH : Nat := 800

/-- Minimum accepted sentence count. -/
def MIN_SENTENCES : Nat := 2

/-- Maximum accepted sentence count. -/
def MAX_SENTENCES : Nat := 5

/-- The `GENERIC_PHRASES` list of `gemini_generator.py`. -/
def GENERIC_PHRASES : List Str :=
  ["many developers encounter".data,
   "this is something many".data,
   "analyze systematically".data,
   "time-consuming manual inspection".data,
   "similar patterns in your codebase".data,
   "complex debugging scenarios".data,
   "can help analyze the problem".data,
   "potential solutions based on similar patterns".data]

/-- The `FORBIDDEN_PHRASES` list of `gemini_generator.py`. -/
def FORBIDDEN_PHRASES : List Str :=
  ["interesting discussion".data,
   "thanks for sharing".data,
   "great post".data,
   "nice thread".data,
   "good topic".data,
   "appreciate this".data,
   "thanks for starting".data,
   "check out our".data,
   "visit our website".data]

/-- A static context-pack snippet (`{id, title, content}` dict). -/
structure Snippet where
  id : Str
  title : Str
  content : Str
deriving DecidableEq, Repr

/-- The `KILOCODE_CONTEXT_PACK` static context pack. -/
def KILOCODE_CONTEXT_PACK : List Snippet :=
  [⟨"core".data, "Core Capability".data,
    "KiloCode is an AI coding assistant that understands your entire project context, not just the current file.".data⟩,
   ⟨"analysis".data, "Code Analysis".data,
    "KiloCode can analyze code structure, identify issues, and suggest improvements based on best practices and your codebase patterns.".data⟩,
   ⟨"debugging".data, "Debugging Help".data,
    "KiloCode helps debug by tracing control flow, identifying error patterns, and suggesting where to add logging or breakpoints.".data⟩,
   ⟨"refactoring".data, "Refactoring Support".data,
    "KiloCode assists with refactoring by analyzing dependencies, suggesting safer approaches, and maintaining consistency.".data⟩,
   ⟨"docs".data, "Documentation".data,
    "KiloCode can generate and update documentation that stays in sync with your code changes.".data⟩,
   ⟨"testing".data, "Test Generation".data,
    "KiloCode suggests test cases based on code logic, edge cases, and existing patterns in your test suite.".data⟩,
   ⟨"context".data, "Project Context".data,
    "Unlike simple autocomplete, KiloCode maintains awareness of your project structure, dependencies, and coding conventions.".data⟩,
   ⟨"workflow".data, "Workflow Integration".data,
    "KiloCode integrates into your development workflow, handling boilerplate while you focus on architecture and logic.".data⟩]

/-- Disjunction of substring tests (`any(w in text for w in [...])`). -/
def anyKeyword (text : Str) (ws : List Str) : Bool :=
  ws.any (fun w => containsSub text w)

/-- The keyword-scoring `elif` chain of `get_relevant_context_snippets`:
10 points when the snippet own-id branch has a keyword hit, 3 points for
`core`, 0 otherwise. -/
def snippetScore (text : Str) (snippet_id : Str) : Nat :=
  if snippet_id = "debugging".data && anyKeyword text
      ["debug".data, "bug".data, "error".data, "issue".data, "crash".data, "fix".data] then 10
  else if snippet_id = "refactoring".data && anyKeyword text
      ["refactor".data, "cleanup".data, "technical debt".data, "legacy".data, "rewrite".data] then 10
  else if snippet_id = "testing".data && anyKeyword text
      ["test".data, "unit test".data, "coverage".data, "tdd".data, "spec".data] then 10
  else if snippet_id = "docs".data && anyKeyword text
      ["document".data, "readme".data, "comment".data, "jsdoc".data, "docstring".data] then 10
  else if snippet_id = "analysis".data && anyKeyword text
      ["analyze".data, "review".data, "understand".data, "codebase".data, "structure".data] then 10
  else if snippet_id = "context".data && anyKeyword text
      ["context".data, "project".data, "large".data, "monorepo".data, "multiple files".data] then 10
  else if snippet_id = "workflow".data && anyKeyword text
      ["workflow".data, "productivity".data, "automate".data, "boilerplate".data] then 10
  else if snippet_id = "core".data then 3
  else 0

/-- Stable descending insertion by score, modelling Python's stable
`list.sort(key=…, reverse=True)`: an element is placed before the first
already-sorted element whose score is not larger. -/
def insertScoredDesc (x : Nat × Snippet) : List (Nat × Snippet) → List (Nat × Snippet)
  | [] => [x]
  | y :: ys => if x.1 < y.1 then y :: insertScoredDesc x ys else x :: y :: ys

/-- Stable descending sort by score. -/
def sortScoredDesc (l : List (Nat × Snippet)) : List (Nat × Snippet) :=
  l.foldr insertScoredDesc []

/-- Embedding of `get_relevant_context_snippets(post_content, post_title,
max_snippets)`:  score the static pack by keyword relevance, keep
positively scored snippets sorted by descending score (stable), take the
top `max_snippets`, and append `core` when there is room and it was not
selected. -/
def get_relevant_context_snippets (post_content post_title : Str) (max_snippets : Nat) :
    List Snippet :=
  let text := pyLower (post_title ++ ' ' :: post_content)
  let relevance_scores := KILOCODE_CONTEXT_PACK.filterMap (fun sn =>
    let score := snippetScore text sn.id
    if 0 < score then some (score, sn) else none)
  let selected := ((sortScoredDesc relevance_scores).take max_snippets).map Prod.snd
  if selected.length < max_snippets then
    match KILOCODE_CONTEXT_PACK.find? (fun sn => sn.id = "core".data) with
    | some core => if core ∈ selected then selected else selected ++ [core]
    | none => selected
  else selected

/-- Sentence punctuation class `[.!?]`. -/
def isSentencePunct (c : Char) : Bool := c = '.' || c = '!' || c = '?'

/-- Embedding of `_count_sentences`: the number of non-blank segments
obtained by splitting the stripped text on `[.!?]+`. -/
def count_sentences (text : Str) : Nat :=
  ((splitRuns isSentencePunct (pyStrip text)).filter (fun seg => pyStrip seg ≠ [])).length

/-- Embedding of `_check_forbidden_phrases`: `true` iff no forbidden
phrase occurs in the lower-cased comment. -/
def check_forbidden_phrases (comment : Str) : Bool :=
  FORBIDDEN_PHRASES.all (fun p => !containsSub (pyLower comment) p)

/-- Embedding of `_check_generic_phrases`: the detected generic phrases
(in list order) together with the specificity verdict. -/
def check_generic_phrases (comment : Str) : Bool × List Str :=
  let detected := GENERIC_PHRASES.filter (fun p => containsSub (pyLower comment) p)
  (detected.isEmpty, detected)

/-- The stop set of the technology-term filter of `_extract_key_points`. -/
def keyPointStopSet : List Str :=
  ["the".data, "this".data, "that".data, "when".data, "where".data,
   "what".data, "have".data, "been".data, "just".data]

/-- Embedding of `_extract_key_points(post_title, post_content,
max_points)`: questions, a technologies line, then problem matches, capped
at `max_points`. -/
def extract_key_points (post_title post_content : Str) (max_points : Nat) : List Str :=
  let text := post_title ++ ' ' :: post_content
  let questionPoints := ((findQuestions text).take 2).filterMap (fun q0 =>
    let q := pyStrip q0
    if 20 < q.length ∧ q.length < 200 then some ("Question: ".data ++ q) else none)
  let tech_terms := (techTermsSpace (wordTokens text)).filter
    (fun t => decide (3 < t.length) && !(decide (pyLower t ∈ keyPointStopSet)))
  let techPoints :=
    if tech_terms = [] then []
    else ["Technologies/topics: ".data ++ joinSep ", ".data ((dedupFirst tech_terms).take 5)]
  let lowered := pyLower text
  let problemPoints :=
    ([scanLitNonDot "having trouble with ".data lowered,
      scanLitNonDot "struggling with ".data lowered,
      scanLitNonDot "can\x27t figure out ".data lowered,
      scanProblemConn "error".data lowered,
      scanProblemConn "issue".data lowered]).filterMap
      (fun m => m.map (fun v => "Problem: ".data ++ v))
  (questionPoints ++ techPoints ++ problemPoints).take max_points

/-- The metrics dict of a `QualityVerdict`
(`_validate_comment_quality`'s `details`). -/
structure QualityDetails where
  length : Nat
  sentence_count : Nat
  has_kilocode : Bool
  overlap_count : Nat
  generic_phrases : List Str
deriving DecidableEq, Repr

/-- The common-word exclusion set of the content-overlap rule. -/
def overlapCommonWords : List Str :=
  ["about".data, "there".data, "their".data, "would".data, "could".data,
   "should".data, "which".data, "these".data, "those".data, "kilocode".data,
   "really".data, "actually".data, "something".data, "definitely".data,
   "particularly".data]

/-- Meaningful words of a text: regex `\b\w{5,}\b` over the lower-cased
text, i.e. maximal word runs of length at least 5. -/
def contentWords (s : Str) : List Str :=
  (wordRuns (pyLower s)).filter (fun w => decide (5 ≤ w.length))

/-- The content-overlap metric of the Quality Validator: the number of
distinct meaningful words shared by post and draft, excluding the common
set (Python `len((post_words - common) & (comment_words - common))`). -/
def overlapCount (comment post_title post_content : Str) : Nat :=
  let post_words := (dedupFirst (contentWords (post_title ++ ' ' :: post_content))).filter
    (fun w => !(decide (w ∈ overlapCommonWords)))
  let comment_words := (dedupFirst (contentWords comment)).filter
    (fun w => !(decide (w ∈ overlapCommonWords)))
  (post_words.filter (fun w => decide (w ∈ comment_words))).length

/-- Embedding of `_validate_comment_quality(comment, post_title,
post_content)`: the `(is_valid, reason, details)` triple with the source's
rule order and early returns.  Note that `overlap_count` and
`generic_phrases` keep their initial values (`0`, `[]`) when an earlier
rule fails, exactly as in the source. -/
def validate_comment_quality (comment post_title post_content : Str) :
    Bool × Str × QualityDetails :=
  let details0 : QualityDetails :=
    { length := comment.length
      sentence_count := count_sentences comment
      has_kilocode := containsSub (pyLower comment) "kilocode".data
      overlap_count := 0
      generic_phrases := [] }
  if comment.length < MIN_COMMENT_LENGTH then
    (false, "too_short length=".data ++ natStr comment.length ++ " min=".data ++
      natStr MIN_COMMENT_LENGTH, details0)
  else if MAX_COMMENT_LENGTH < comment.length then
    (false, "too_long length=".data ++ natStr comment.length ++ " max=".data ++
      natStr MAX_COMMENT_LENGTH, details0)
  else if details0.sentence_count < MIN_SENTENCES then
    (false, "too_few_sentences count=".data ++ natStr details0.sentence_count ++
      " min=".data ++ natStr MIN_SENTENCES, details0)
  else if MAX_SENTENCES < details0.sentence_count then
    (false, "too_many_sentences count=".data ++ natStr details0.sentence_count ++
      " max=".data ++ natStr MAX_SENTENCES, details0)
  else if !details0.has_kilocode then
    (false, "no_kilocode_mention".data, details0)
  else if !check_forbidden_phrases comment then
    (false, "contains_forbidden_phrase".data, details0)
  else
    let gp := check_generic_phrases comment
    let details1 := { details0 with generic_phrases := gp.2 }
    if !gp.1 then
      (false, "contains_generic_phrases count=".data ++ natStr gp.2.length, details1)
    else
      let ovl := overlapCount comment post_title post_content
      let details2 := { details1 with overlap_count := ovl }
      if ovl < 2 then
        (false, "insufficient_context_reference overlap=".data ++ natStr ovl, details2)
      else
        (true, "valid".data, details2)

/-- The stop set of the technology-term filter of
`_generate_enhanced_fallback`. -/
def fallbackStopSet : List Str :=
  ["the".data, "this".data, "that".data, "when".data, "where".data,
   "what".data, "have".data, "been".data, "just".data, "can".data, "will".data]

/-- The problem-word alternation of `_generate_enhanced_fallback`, in
regex order. -/
def problemWordAlts : List Str :=
  ["error".data, "bug".data, "issue".data, "problem".data, "trouble".data,
   "failing".data, "broken".data, "crash".data]

/-- The `context_map` topic-to-recommendation table of
`_generate_enhanced_fallback`, as a lookup function on snippet ids. -/
def contextMapLookup (ctx_id : Str) : Option Str :=
  if ctx_id = "debugging".data then
    some "KiloCode can trace through the code flow and pinpoint where things diverge from expected behavior.".data
  else if ctx_id = "analysis".data then
    some "KiloCode can analyze your codebase structure and highlight the relevant dependencies.".data
  else if ctx_id = "refactoring".data then
    some "KiloCode can map the dependencies and suggest a safe refactoring sequence.".data
  else if ctx_id = "testing".data then
    some "KiloCode can identify the code paths and suggest specific test cases.".data
  else if ctx_id = "docs".data then
    some "KiloCode can scan your code and generate accurate documentation.".data
  else if ctx_id = "context".data then
    some "KiloCode maintains project-wide context so it understands how pieces connect.".data
  else if ctx_id = "workflow".data then
    some "KiloCode can automate the repetitive parts while you focus on the architecture.".data
  else if ctx_id = "core".data then
    some "KiloCode understands your full project context, not just individual files.".data
  else none

/-- The technology terms of `_generate_enhanced_fallback`: matches of
the dot-variant capitalized-term regex, filtered by length and stop set. -/
def fallbackTechTerms (text : Str) : List Str :=
  (techTermsDot (wordTokens text)).filter
    (fun t => decide (2 < t.length) && !(decide (pyLower t ∈ fallbackStopSet)))

/-- The opening sentence of `_generate_enhanced_fallback` (the first
`parts.append` block): chosen from main topic, action, problem words and
key points, in the source's branch order. -/
def fallbackOpening (main_topic action : Option Str) (problem_words key_points : List Str)
    (text : Str) : Str :=
  match main_topic, action with
  | some topic, some act =>
    "For ".data ++ act ++ "ing with ".data ++ topic ++
      ", the approach will depend on your specific setup.".data
  | some topic, none =>
    match problem_words with
    | pw :: _ =>
      "The ".data ++ pw ++ " you\x27re seeing with ".data ++ topic ++
        " likely has a specific cause you can track down.".data
    | [] => "Working with ".data ++ topic ++ " does require attention to some specifics.".data
  | none, _ =>
    match key_points with
    | kp :: _ =>
      let point0 := replaceAll "Problem: ".data [] (replaceAll "Question: ".data [] kp)
      let point := if 50 < point0.length then point0.take 50 ++ "...".data else point0
      "Regarding \x27".data ++ point ++ "\x27 - there are a few approaches worth considering.".data
    | [] =>
      if containsSub text "?".data then
        "That\x27s a good question that depends on your specific requirements.".data
      else
        "The challenge you\x27ve outlined has some specific factors to consider.".data

/-- The KiloCode recommendation sentence of `_generate_enhanced_fallback`:
first context id with a `context_map` entry, else a default keyed on
problem words and action. -/
def fallbackRec (context_ids problem_words : List Str) (action : Option Str) : Str :=
  match context_ids.findSome? contextMapLookup with
  | some r => r
  | none =>
    if problem_words ≠ [] then (contextMapLookup "debugging".data).getD []
    else if action = some "refactor".data ∨ action = some "clean".data ∨
        action = some "rewrite".data then
      (contextMapLookup "refactoring".data).getD []
    else (contextMapLookup "core".data).getD []

/-- The actionable-suggestion sentence of `_generate_enhanced_fallback`
(the third `parts.append` block). -/
def fallbackSuggestion (main_topic action : Option Str) : Str :=
  match main_topic with
  | some topic =>
    "Start by having KiloCode analyze the ".data ++ topic ++
      "-related code to see the full picture.".data
  | none =>
    match action with
    | some _ =>
      "Try pointing KiloCode at the relevant files to get a clearer view of what\x27s happening.".data
    | none =>
      "Running KiloCode\x27s analysis on the relevant code should surface the key factors.".data

/-- The maximally templated terminal substitution of
`_generate_enhanced_fallback` (used when the assembled text contains a
generic phrase). -/
def fallbackNuclear (main_topic : Option Str) : Str :=
  match main_topic with
  | some topic =>
    "For your ".data ++ topic ++
      " question: KiloCode can analyze that specific code and show you exactly what\x27s happening. Point it at the relevant files and it\x27ll map out the dependencies and flow.".data
  | none =>
    "This looks like something where seeing the actual code context would help. KiloCode\x27s project analysis can show the specific relationships and highlight what needs attention.".data

/-- Embedding of `_generate_enhanced_fallback(post_title, post_content,
key_points, context_ids)`: the deterministic, model-free Fallback
Synthesizer.  It assembles exactly three sentences (opening, KiloCode
recommendation, actionable suggestion) and substitutes a fully templated
response when the assembly accidentally contains a generic phrase. -/
def generate_enhanced_fallback (post_title post_content : Str) (key_points : List Str)
    (context_ids : List Str) : Str :=
  let text := post_title ++ ' ' :: post_content
  let main_topic : Option Str := (fallbackTechTerms text).head?
  let problem_words := scanAlts problemWordAlts (pyLower text)
  let action : Option Str := scanAction (pyLower text)
  let result := joinSep " ".data
    [fallbackOpening main_topic action problem_words key_points text,
     fallbackRec context_ids problem_words action,
     fallbackSuggestion main_topic action]
  if !(check_generic_phrases result).1 then fallbackNuclear main_topic
  else result

/-- Vector returned by the embedding backend (black box; the pipeline
never inspects components except through the similarity oracle). -/
abbrev Vec := List ℚ

/-- A metadata record of a Context Store corpus, or a retrieved-fact /
style-example dict of the Generation Engine; missing dict keys are
`none`. -/
structure MetaRec where
  id : Option Str := none
  title : Option Str := none
  text : Option Str := none
  chunk_text : Option Str := none
  comment_text : Option Str := none
deriving DecidableEq, Repr

/-- Exception classes of the embedding: the four configuration-error
google classes, the four transient-error classes, `ValueError`,
`MemoryError`, FastAPI `HTTPException` and a generic rest. -/
inductive ExcKind
  | notFound
  | invalidArgument
  | permissionDenied
  | unauthenticated
  | serviceUnavailable
  | deadlineExceeded
  | resourceExhausted
  | internalServerError
  | valueError
  | memoryError
  | httpException (status : Nat)
  | otherExc
deriving DecidableEq, Repr

/-- A Python exception: class plus `str(error)` message. -/
structure PyExc where
  kind : ExcKind
  msg : Str
deriving DecidableEq, Repr

/-- Membership in `CONFIG_ERROR_TYPES`. -/
def isConfigErrorType : ExcKind → Bool
  | .notFound | .invalidArgument | .permissionDenied | .unauthenticated => true
  | _ => false

/-- Membership in `TRANSIENT_ERROR_TYPES`. -/
def isTransientErrorType : ExcKind → Bool
  | .serviceUnavailable | .deadlineExceeded | .resourceExhausted | .internalServerError => true
  | _ => false

/-- Embedding of `classify_error(error)`: isinstance checks on the google
exception classes, then substring checks on the message. -/
def classify_error (e : PyExc) : Str :=
  if isConfigErrorType e.kind then "config_error".data
  else if isTransientErrorType e.kind then "transient_error".data
  else if containsSub e.msg "404".data || containsSub (pyLower e.msg) "not found".data then
    "config_error".data
  else if containsSub e.msg "429".data || containsSub (pyLower e.msg) "rate".data then
    "transient_error".data
  else if containsSub e.msg "500".data || containsSub e.msg "503".data then
    "transient_error".data
  else "unknown_error".data

/-- Observable external calls of one request, in order. -/
inductive Ev
  | loadIndexCall (name : Str)
  | diskLoad (name : Str)
  | embedCall (numTexts : Nat)
  | genCall (model : Str) (attempt : Nat)
deriving DecidableEq, Repr

/-- Whether an event is an embedding-retrieval call (index load or
embedding-backend call), as opposed to a generative-model call. -/
def isRetrievalEv : Ev → Bool
  | .loadIndexCall _ => true
  | .diskLoad _ => true
  | .embedCall _ => true
  | .genCall _ _ => false

/-- Mutable per-process state visible to one request: the index cache and
the counters that index into the oracle streams, plus the recorded event
trail. -/
structure PState where
  cache : List (Str × (List Vec × List MetaRec))
  genCalls : Nat
  embedCalls : Nat
  events : List Ev
deriving DecidableEq, Repr

/-- Fresh state at process start. -/
def PState.init : PState := ⟨[], 0, 0, []⟩

/-- Result of the fetch collaborator (`fetch_post_content` never raises:
every exception class is caught inside its retry loop). -/
structure FetchRes where
  text : Str
  title : Str
  fetch_status : Str
  content_len : Nat
deriving DecidableEq, Repr

/-- Oracles for the external world: whether `GEMINI_API_KEY` is set, the
`GEMINI_GEN_MODEL` primary model name, the outcome of the n-th
generative-model call, the embedding function produced by the n-th
encode call (one vector per input text, or an exception), the cosine
similarity (sklearn, black box), the on-disk index files, and the fetch
result for the one request under consideration. -/
structure Env where
  apiKeySet : Bool
  primaryModel : Str
  genResult : Nat → Except PyExc Str
  encodeFun : Nat → Except PyExc (Str → Vec)
  cosSim : Vec → Vec → ℚ
  loadDisk : Str → Except PyExc (List Vec × List MetaRec)
  fetchResult : FetchRes

/-- A state-passing computation that may raise a Python exception. -/
abbrev PipeM (α : Type) := PState → Except PyExc α × PState

/-- Association lookup in the index cache (`name in _indexes_cache`). -/
def lookupCache (cache : List (Str × (List Vec × List MetaRec))) (name : Str) :
    Option (List Vec × List MetaRec) :=
  match cache with
  | [] => none
  | (k, v) :: rest => if k = name then some v else lookupCache rest name

/-- Embedding of `retrieval.load_index(name)`: cache hit returns the
cached pair; otherwise the files are read from disk (an event), cached
and returned; a disk failure is logged and re-raised. -/
def load_index (env : Env) (name : Str) : PipeM (List Vec × List MetaRec) := fun s =>
  let s0 := { s with events := s.events ++ [Ev.loadIndexCall name] }
  match lookupCache s0.cache name with
  | some d => (.ok d, s0)
  | none =>
    match env.loadDisk name with
    | .ok d =>
      (.ok d, { s0 with cache := s0.cache ++ [(name, d)], events := s0.events ++ [Ev.diskLoad name] })
    | .error e => (.error e, s0)

/-- Embedding of `retrieval.Embedder.embed(texts, batch_size, normalize)`:
one embedding-backend call producing one vector per text, or an exception
(model-load or encode failure), re-raised. -/
def embedder_embed (env : Env) (texts : List Str) (_batch_size : Nat) (_normalize : Bool) :
    PipeM (List Vec) := fun s =>
  let idx := s.embedCalls
  let s1 := { s with embedCalls := idx + 1, events := s.events ++ [Ev.embedCall texts.length] }
  match env.encodeFun idx with
  | .ok f => (.ok (texts.map f), s1)
  | .error e => (.error e, s1)

/-- Stable descending argsort of scores (model of
`np.argsort(scores)[::-1]`; numpy leaves the tie order unspecified, and
nothing settled here depends on it). -/
def insertIdxAsc (scores : List ℚ) (i : Nat) : List Nat → List Nat
  | [] => [i]
  | j :: js =>
    if scores.getD j 0 ≤ scores.getD i 0 then j :: insertIdxAsc scores i js
    else i :: j :: js

/-- Descending argsort (ascending stable insertion, reversed). -/
def argsortDesc (scores : List ℚ) : List Nat :=
  ((List.range scores.length).foldr (insertIdxAsc scores) []).reverse

/-- Embedding of `retrieval.Embedder.embed_chunked(chunks, query, top_k)`:
embed the query, embed the chunks, rank by cosine similarity and return
the top-k `(chunk, score)` pairs; all internal failures are absorbed into
an empty result. -/
def embed_chunked (env : Env) (chunks : List Str) (query : Str) (top_k : Nat) :
    PipeM (List (Str × ℚ)) := fun s =>
  if chunks = [] then (.ok [], s)
  else
    match embedder_embed env [query] 1 true s with
    | (.error _, s1) => (.ok [], s1)
    | (.ok qv, s1) =>
      match embedder_embed env chunks (min 4 chunks.length) true s1 with
      | (.error _, s2) => (.ok [], s2)
      | (.ok cvs, s2) =>
        let q := qv.headD []
        let scores := cvs.map (env.cosSim q)
        let topIdx := (argsortDesc scores).take top_k
        (.ok (topIdx.map (fun i => (chunks.getD i [], scores.getD i 0))), s2)

/-- Stable descending insertion of a scored record (Python's stable
`sorted(…, key=lambda x: x[0], reverse=True)`). -/
def insertRankedDesc (x : ℚ × MetaRec) : List (ℚ × MetaRec) → List (ℚ × MetaRec)
  | [] => [x]
  | y :: ys => if x.1 < y.1 then y :: insertRankedDesc x ys else x :: y :: ys

/-- Stable descending sort of scored records. -/
def sortRankedDesc (l : List (ℚ × MetaRec)) : List (ℚ × MetaRec) :=
  l.foldr insertRankedDesc []

/-- Embedding of `retrieval.search_by_name(query, index_name, embedder,
top_k)`: load the (cached) index, embed the query, rank all records by
cosine similarity and return the top-k; any exception is absorbed into an
empty result. -/
def search_by_name (env : Env) (query : Str) (index_name : Str) (top_k : Nat) :
    PipeM (List (ℚ × MetaRec)) := fun s =>
  match load_index env index_name s with
  | (.error _, s1) => (.ok [], s1)
  | (.ok (vectors, meta), s1) =>
    match embedder_embed env [query] 1 true s1 with
    | (.error _, s2) => (.ok [], s2)
    | (.ok qv, s2) =>
      let q := qv.headD []
      let scores := vectors.map (env.cosSim q)
      let ranked := (sortRankedDesc (scores.zip meta)).take top_k
      (.ok ranked, s2)

/-- The strict system prompt of `_build_system_prompt`, verbatim. -/
def build_system_prompt : Str :=
  "You are a helpful developer commenting on Reddit programming discussions.\n\nCRITICAL REQUIREMENTS (violations = rejection):\n1. Your comment MUST directly reference 2+ specific details from the Reddit post (exact problem, technology, error, or context mentioned)\n2. Your comment MUST mention \"KiloCode\" naturally as a relevant solution to THIS SPECIFIC problem\n3. Your comment MUST provide actionable advice (not vague suggestions)\n4. Your comment MUST be 3-5 sentences (250-700 characters)\n5. Your comment MUST sound like a developer sharing real experience\n\nABSOLUTELY FORBIDDEN (instant rejection):\n- \"many developers encounter\" or similar generic statements\n- \"analyze systematically\" or vague process descriptions\n- \"time-consuming manual inspection\" or generic pain points\n- \"similar patterns in your codebase\" without specifying what patterns\n- \"Interesting discussion\", \"Thanks for sharing\", \"Great post\"\n- Any marketing language or promotional tone\n- Emojis of any kind\n- Generic statements that could apply to any post\n\nREQUIRED STRUCTURE:\n1. Opening: Directly acknowledge THE SPECIFIC problem/question from the post (quote or paraphrase it)\n2. Body: Explain how KiloCode helps with THIS EXACT issue (be concrete about the feature)\n3. Actionable tip: Give one specific suggestion the poster can try\n4. Optional: Brief \"why this matters\" for their situation\n\nGOOD EXAMPLE (for a post about \"React useEffect dependency array warnings\"):\n\"The useEffect dependency warnings you\x27re seeing are usually caused by missing dependencies or stale closures. KiloCode can analyze your hooks and show exactly which variables are being referenced but not declared in the dependency array. Try running KiloCode\x27s hook analyzer on that component - it\x27ll highlight the problematic effects and suggest the minimal dependency set you actually need.\"\n\nBAD EXAMPLE (rejected):\n\"This is something many developers encounter when working with React. KiloCode can help analyze the problem systematically and suggest solutions. It\x27s particularly useful when manual inspection would be time-consuming.\"\n\nThe BAD example will be REJECTED because it\x27s generic and could apply to any React question.".data

/-- The retry task-instruction block of `_build_user_prompt`, verbatim. -/
def retryTaskBlock : Str :=
  "\nWrite a NEW comment that fixes this issue. You MUST:\n1. Quote or paraphrase a SPECIFIC detail from the post (technology, error message, exact problem)\n2. Explain EXACTLY how KiloCode\x27s specific feature helps (not vague \"can help analyze\")\n3. Give ONE concrete actionable step the poster can take\n4. Use 3-5 sentences (250-700 chars)\n\nBANNED PHRASES (will cause rejection):\n- \"many developers encounter\"\n- \"analyze systematically\"\n- \"time-consuming manual inspection\"\n- \"similar patterns\"\n- Any generic statement that could apply to any post".data

/-- The first-attempt task-instruction block of `_build_user_prompt`,
verbatim. -/
def firstTaskBlock : Str :=
  "Write a Reddit comment that:\n1. Opens by acknowledging THE SPECIFIC problem/question (not generic acknowledgment)\n2. Mentions KiloCode with a CONCRETE explanation of how it helps THIS issue\n3. Provides ONE actionable suggestion\n4. Is 3-5 sentences (250-700 characters)\n\nYour comment must be SPECIFIC to this post. Generic comments will be rejected.".data

/-- Numbered key-point lines (`f"{i}. {point}"`, 1-based). -/
def numberPoints (pts : List Str) : List Str :=
  (List.range pts.length).zip pts |>.map (fun p => natStr (p.1 + 1) ++ ". ".data ++ p.2)

/-- Embedding of `_build_user_prompt(...)`: the structured prompt parts
joined by newlines, with the retry variant naming the rejection reason. -/
def build_user_prompt (post_title post_content doc_context style_examples subreddit : Str)
    (key_points : List Str) (is_retry : Bool) (retry_reason : Str) : Str :=
  let part1 := ["=== REDDIT POST TO RESPOND TO ===".data] ++
    (if subreddit ≠ [] then ["Subreddit: r/".data ++ subreddit] else []) ++
    ["Title: ".data ++ post_title,
     "\nPost Content:\n".data ++ post_content.take 2000]
  let kpSection := fun (pts : List Str) =>
    if pts ≠ [] then
      ["\n\n=== KEY POINTS TO ADDRESS ===".data,
       "Your comment MUST reference at least 2 of these specific points:".data] ++
        numberPoints pts
    else []
  let part2 :=
    if key_points ≠ [] then kpSection key_points
    else kpSection (extract_key_points post_title post_content 5)
  let part3 := ["\n\n=== KILOCODE CAPABILITIES (use these for specific recommendations) ===".data] ++
    (if doc_context ≠ [] then [doc_context.take 1000]
     else (get_relevant_context_snippets post_content post_title 3).map
       (fun sn => "- ".data ++ sn.title ++ ": ".data ++ sn.content))
  let part4 :=
    if style_examples ≠ [] then
      ["\n\n=== EXAMPLE COMMENT STYLE ===\n".data ++ style_examples.take 500]
    else []
  let part5 := ["\n\n=== YOUR TASK ===".data] ++
    (if is_retry then
      ["⚠️ PREVIOUS ATTEMPT REJECTED: ".data ++ retry_reason, retryTaskBlock]
     else [firstTaskBlock])
  joinSep "\n".data (part1 ++ part2 ++ part3 ++ part4 ++ part5)

/-- Post-processing of a raw model response in `_try_generate_with_model`:
strip, remove bold markers, collapse newline runs to spaces, strip. -/
def postprocessComment (raw : Str) : Str :=
  pyStrip (collapseRuns (fun c => c = '\n') ' ' (replaceAll ['*', '*'] [] (pyStrip raw)))

/-- Embedding of `_try_generate_with_model(model_name, system_prompt,
user_prompt, attempt)`: one generative-backend call (an event, consuming
the next oracle outcome), returning `(comment?, error?, error_type)`;
never raises.  The recorded attempt index is the 0-based loop index. -/
def try_generate_with_model (env : Env) (model : Str) (_system_prompt _user_prompt : Str)
    (attempt : Nat) : PipeM (Option Str × Option PyExc × Str) := fun s =>
  let idx := s.genCalls
  let s1 := { s with genCalls := idx + 1, events := s.events ++ [Ev.genCall model attempt] }
  match env.genResult idx with
  | .ok raw => (.ok (some (postprocessComment raw), none, "success".data), s1)
  | .error e => (.ok (none, some e, classify_error e), s1)

/-- The `GEMINI_FALLBACK_MODELS` chain. -/
def GEMINI_FALLBACK_MODELS : List Str := ["gemini-1.5-flash".data, "gemini-1.5-pro".data]

/-- The retry reason attached to the prompt after a quality failure. -/
def qualityRetryReason : Str :=
  "Comment was too generic or didn\x27t reference specific post details".data

/-- Per-request context of the Generation Engine's model/retry loop. -/
structure EngineCtx where
  post_title : Str
  post_content : Str
  doc_context : Str
  style_context : Str
  subreddit : Str
  key_points : List Str
  max_retries : Nat

/-- The inner `for attempt in range(max_retries + 1)` loop of
`generate_comment_with_gemini`, for one model.  `attemptsLeft` is
`max_retries + 1 - attempt`.  Returns `(accepted?, last_error_type)`:
`some comment` on a quality-validated draft, `none` when the model is
abandoned (config error, exhausted retries, or exhausted quality
retries). -/
def runModelAttempts (env : Env) (ctx : EngineCtx) (model : Str) (attempt attemptsLeft : Nat)
    (lastErrType : Option Str) : PipeM (Option Str × Option Str) := fun s =>
  match attemptsLeft with
  | 0 => (.ok (none, lastErrType), s)
  | n + 1 =>
    let is_retry := decide (0 < attempt)
    let retry_reason :=
      if is_retry && lastErrType = some "quality_failed".data then qualityRetryReason else []
    let user_prompt := build_user_prompt ctx.post_title ctx.post_content ctx.doc_context
      ctx.style_context ctx.subreddit ctx.key_points is_retry retry_reason
    match try_generate_with_model env model build_system_prompt user_prompt attempt s with
    | (.error e, s1) => (.error e, s1)
    | (.ok (comment?, error?, error_type), s1) =>
      match error? with
      | some _ =>
        if error_type = "config_error".data then
          (.ok (none, some error_type), s1)
        else if error_type = "transient_error".data then
          if attempt < ctx.max_retries then
            runModelAttempts env ctx model (attempt + 1) n (some error_type) s1
          else (.ok (none, some error_type), s1)
        else
          if attempt < 1 then
            runModelAttempts env ctx model (attempt + 1) n (some error_type) s1
          else (.ok (none, some error_type), s1)
      | none =>
        let comment := comment?.getD []
        match validate_comment_quality comment ctx.post_title ctx.post_content with
        | (true, _, _) => (.ok (some comment, lastErrType), s1)
        | (false, reason, _) =>
          if containsSub reason "generic_phrases".data && decide (attempt < ctx.max_retries) then
            runModelAttempts env ctx model (attempt + 1) n (some "quality_failed".data) s1
          else if attempt < ctx.max_retries then
            runModelAttempts env ctx model (attempt + 1) n (some "quality_failed".data) s1
          else (.ok (none, some "quality_failed".data), s1)

/-- The outer model-chain loop of `generate_comment_with_gemini`. -/
def runModels (env : Env) (ctx : EngineCtx) (models : List Str) (lastErrType : Option Str) :
    PipeM (Option Str × Option Str) := fun s =>
  match models with
  | [] => (.ok (none, lastErrType), s)
  | m :: ms =>
    match runModelAttempts env ctx m 0 (ctx.max_retries + 1) lastErrType s with
    | (.error e, s1) => (.error e, s1)
    | (.ok (some c, lastErr'), s1) => (.ok (some c, lastErr'), s1)
    | (.ok (none, lastErr'), s1) => runModels env ctx ms lastErr' s1

/-- The `ValueError` raised when `GEMINI_API_KEY` is missing. -/
def valueErrorNoKey : PyExc :=
  ⟨.valueError, "GEMINI_API_KEY environment variable not set".data⟩

/-- Context preparation of `generate_comment_with_gemini` (lines before
the model loop): the engine context together with
`context_snippets_used` (the ids handed to the fallback). -/
def engineContext (post_title post_content : Str) (doc_facts style_examples : List MetaRec)
    (subreddit : Str) (max_retries : Nat) : EngineCtx × List Str :=
  let doc_texts := (doc_facts.take 3).map (fun f => (f.text.getD (f.chunk_text.getD [])))
  let docData :=
    if doc_facts ≠ [] then
      ((joinSep "\n".data ((doc_texts.filter (fun t => t ≠ [])).map
        (fun t => "- ".data ++ t))).take 1000,
       (doc_facts.take 3).map (fun f => f.id.getD (f.title.getD "unknown".data)))
    else
      let snippets := get_relevant_context_snippets post_content post_title 3
      (joinSep "\n".data (snippets.map (fun sn => "- ".data ++ sn.title ++ ": ".data ++ sn.content)),
       snippets.map (fun sn => sn.id))
  let style_texts := (style_examples.take 2).map (fun ex => ex.comment_text.getD [])
  let style_context := (joinSep "\n\n".data (style_texts.filter (fun t => t ≠ []))).take 500
  let key_points := extract_key_points post_title post_content 5
  ({ post_title := post_title
     post_content := post_content
     doc_context := docData.1
     style_context := style_context
     subreddit := subreddit
     key_points := key_points
     max_retries := max_retries }, docData.2)

/-- Embedding of `generate_comment_with_gemini(post_title, post_content,
doc_facts, style_examples, subreddit, max_retries)`: raises `ValueError`
when no API key is configured; otherwise prepares context, walks the
model chain with per-model retries, and falls back to the deterministic
Fallback Synthesizer on total exhaustion. -/
def generate_comment_with_gemini (env : Env) (post_title post_content : Str)
    (doc_facts style_examples : List MetaRec) (subreddit : Str) (max_retries : Nat) :
    PipeM Str := fun s =>
  if !env.apiKeySet then (.error valueErrorNoKey, s)
  else
    match runModels env
        (engineContext post_title post_content doc_facts style_examples subreddit max_retries).1
        (env.primaryModel :: GEMINI_FALLBACK_MODELS) none s with
    | (.error e, s1) => (.error e, s1)
    | (.ok (some c, _), s1) => (.ok c, s1)
    | (.ok (none, _), s1) =>
      (.ok (generate_enhanced_fallback post_title post_content
        (engineContext post_title post_content doc_facts style_examples subreddit max_retries).1.key_points
        (engineContext post_title post_content doc_facts style_examples subreddit max_retries).2), s1)

/-- A normalized post (`app.NormalizedPost`); the optional metadata
fields (`author`, `sourceContext`, `createdAt`, `keywordsMatched`, `raw`)
are never read by the pipeline and are omitted. -/
structure NormalizedPost where
  id : Str
  platform : Str
  title : Str
  content : Str
  url : Str
deriving DecidableEq, Repr

/-- The IEEE-754 double nearest to the Python literal `0.3`
(`5404319552844595 * 2^-54`), used exactly where the source compares
against `len(words) * 0.3`.  For every word count below `2^50` the
comparison against this exact rational agrees with the source's float
comparison. -/
def float03 : ℚ := (5404319552844595 : ℚ) / 18014398509481984

/-- Embedding of `prompt_builder.detect_twitter_intent(text)`. -/
def detect_twitter_intent (text : Str) : Str :=
  let t := pyStrip (pyLower text)
  if containsSub t "?".data then "question".data
  else if anyKeyword t
      ["just announced".data, "new".data, "release".data, "launch".data, "update".data] then
    "announcement".data
  else if containsSub t " vs ".data || containsSub t " versus ".data ||
      containsSub t "compared to".data then
    "comparison".data
  else
    let words := pySplitWs t
    let link_count := (words.filter (fun w => startsWithL "http".data w)).length
    if 0 < link_count ∧ (words.length : ℚ) * (1 / 2) ≤ (link_count : ℚ) then "link_share".data
    else
      let mention_count := (words.filter (fun w => startsWithL "@".data w)).length
      if 0 < mention_count ∧ (words.length : ℚ) * float03 ≤ (mention_count : ℚ) then
        "mention".data
      else "general".data

/-- The stopword set of `comment_engine.build_twitter_comment`. -/
def twitterStopwords : List Str :=
  ["the".data, "a".data, "an".data, "is".data, "are".data, "was".data, "were".data,
   "be".data, "been".data, "being".data, "have".data, "has".data, "had".data,
   "do".data, "does".data, "did".data, "will".data, "would".data, "could".data,
   "should".data, "may".data, "might".data, "must".data, "shall".data,
   "this".data, "that".data, "these".data, "those".data, "i".data, "you".data,
   "he".data, "she".data, "it".data, "we".data, "they".data, "what".data,
   "which".data, "who".data, "whom".data, "and".data, "or".data, "but".data]

/-- Embedding of `comment_engine.build_twitter_comment(text, intent,
text_length)`: intent-keyed reply templates referencing up to two
interesting words from the tweet. -/
def build_twitter_comment (text : Str) (intent : Str) (_text_length : Nat) : Str :=
  let words := pySplitWs (pyLower text)
  let interesting_words := words.filter
    (fun w => !(decide (w ∈ twitterStopwords)) && decide (3 < w.length))
  let topic := pyTitle (joinSep " ".data (interesting_words.take 2))
  if intent = "question".data then
    "That\x27s an interesting question! ".data ++ topic ++ " is definitely worth exploring.".data
  else if intent = "announcement".data then
    "Great update on ".data ++ topic ++ "! Thanks for sharing.".data
  else if intent = "comparison".data then
    "The comparison is really insightful, especially regarding ".data ++ topic ++ ".".data
  else if intent = "link_share".data then
    "Thanks for sharing this link! Looks interesting.".data
  else if intent = "mention".data then
    "Good point! Thanks for raising this.".data
  else
    if interesting_words ≠ [] then
      "I appreciate your thoughts on ".data ++ topic ++ ". It\x27s a thoughtful perspective!".data
    else
      "Thanks for sharing this! Interesting perspective.".data

/-- Embedding of `comment_engine.generate_twitter_comment(post, embedder,
fetch_status)`: a pure, retrieval-free and model-free template reply (the
source's unused `embedder` parameter is omitted). -/
def generate_twitter_comment (post : NormalizedPost) (_fetch_status : Str) : Str :=
  let text := pyStrip post.content
  let twitter_intent := detect_twitter_intent text
  if text = [] then "Interesting! Thanks for sharing.".data
  else
    let words := pySplitWs text
    let mention_frac : ℚ :=
      ((words.filter (fun w => startsWithL "@".data w)).length : ℚ) / (max words.length 1 : ℚ)
    let link_frac : ℚ :=
      ((words.filter (fun w => startsWithL "http".data w)).length : ℚ) / (max words.length 1 : ℚ)
    if (1 / 2 : ℚ) < mention_frac then "Good point! Interesting perspective on this.".data
    else if (1 / 2 : ℚ) < link_frac then "Thanks for sharing this resource!".data
    else build_twitter_comment text twitter_intent text.length

/-- Leftmost match of regex `reddit\.com/r/([^/]+)` used by
`extract_subreddit`. -/
def extract_subreddit_go (s : Str) : Option Str :=
  match s with
  | [] => none
  | c :: rest =>
    if startsWithL "reddit.com/r/".data (c :: rest) then
      let body := ((c :: rest).drop 13).takeWhile (fun c => c ≠ '/')
      if body = [] then extract_subreddit_go rest else some body
    else extract_subreddit_go rest

/-- Embedding of `comment_engine.extract_subreddit(url)`. -/
def extract_subreddit (url : Str) : Str := (extract_subreddit_go url).getD []

/-- Hard admission ceiling `MAX_CONTENT_LEN` of `comment_engine.py`. -/
def MAX_CONTENT_LEN : Nat := 5000

/-- Hard chunk-count ceiling `MAX_CHUNKS` of `comment_engine.py`. -/
def MAX_CHUNKS : Nat := 2

/-- Detail message of the 413 admission rejection. -/
def contentTooLargeDetail : Str :=
  "Post too long for synchronous processing (max ".data ++ natStr MAX_CONTENT_LEN ++
    " chars)".data

/-- The `HTTPException(status_code=413, …)` raised by the Admission
Controller. -/
def contentTooLargeExc : PyExc := ⟨.httpException 413, contentTooLargeDetail⟩

/-- Conversion of a static context snippet to the `doc_facts` dict shape
built in `generate_reddit_comment` / `generate_lightweight_comment`. -/
def snippetToFact (sn : Snippet) : MetaRec :=
  { id := some sn.id, title := some sn.title, text := some sn.content,
    chunk_text := some sn.content, comment_text := none }

/-- Embedding of `comment_engine.generate_reddit_comment(post, title,
content)`: static context pack (no embeddings), Gemini generation with
`max_retries = 2`, and the enhanced fallback on any exception. -/
def generate_reddit_comment (env : Env) (post : NormalizedPost) (title content : Str) :
    PipeM Str := fun s =>
  if title = [] ∧ content = [] then (.ok "Thanks for starting this discussion!".data, s)
  else
    let subreddit := extract_subreddit post.url
    let context_snippets := get_relevant_context_snippets content title 3
    let context_snippet_ids := context_snippets.map (fun sn => sn.id)
    let doc_facts := context_snippets.map snippetToFact
    match generate_comment_with_gemini env title content doc_facts [] subreddit 2 s with
    | (.ok c, s1) => (.ok c, s1)
    | (.error _, s1) =>
      let key_points := extract_key_points title content 5
      (.ok (generate_enhanced_fallback title content key_points context_snippet_ids), s1)

/-- Embedding of `comment_engine.generate_lightweight_comment(post,
title, content)`: static context pack (two snippets), Gemini generation
with `max_retries = 1`, enhanced fallback on any exception. -/
def generate_lightweight_comment (env : Env) (post : NormalizedPost) (title content : Str) :
    PipeM Str := fun s =>
  if title = [] ∧ content = [] then (.ok "Thanks for starting this discussion!".data, s)
  else
    let context_snippets := get_relevant_context_snippets content title 2
    let doc_facts := context_snippets.map snippetToFact
    match generate_comment_with_gemini env title content doc_facts [] [] 1 s with
    | (.ok c, s1) => (.ok c, s1)
    | (.error _, s1) =>
      let key_points := extract_key_points title content 5
      let context_ids := context_snippets.map (fun sn => sn.id)
      (.ok (generate_enhanced_fallback title content key_points context_ids), s1)

/-- The chunk list of `generate_long_form_comment`: cleaned content,
chunked with `chunk_chars = 1000`, `overlap = 150`, `max_chunks = 8`,
then capped at `MAX_CHUNKS`.  `chunk_text` is total at these parameters
(`chunk_text_spec`), so the `getD` default is never taken. -/
def longformChunks (post : NormalizedPost) : List Str :=
  let cleaned_content := clean_text (pyStrip post.content) MAX_CONTENT_LEN
  let chunks0 := (chunk_text cleaned_content 1000 150 8).getD []
  if MAX_CHUNKS < chunks0.length then chunks0.take MAX_CHUNKS else chunks0

/-- The chunk-ranking query `f"{title} {chunks[0][:500]}"`. -/
def longformQuery (post : NormalizedPost) : Str :=
  pyStrip post.title ++ ' ' :: ((longformChunks post).headD []).take 500

/-- The style/docs retrieval step of `generate_long_form_comment`: two
`search_by_name` calls on fetch success with a non-empty chunk ranking,
otherwise empty context.  `search_by_name` absorbs its own failures, so
the error arms here are dead plumbing. -/
def longformRetrieve (env : Env) (title : Str) (top_chunks : List (Str × ℚ))
    (fetch_status : Str) (top_k_style top_k_docs : Nat) (s : PState) :
    (List MetaRec × List MetaRec) × PState :=
  if fetch_status = "success".data ∧ top_chunks ≠ [] then
    let retrieval_query := title ++ ' ' :: ((top_chunks.headD ([], 0)).1.take 300)
    match search_by_name env retrieval_query "comments".data top_k_style s with
    | (.error _, s2) => (([], []), s2)
    | (.ok style_res, s2) =>
      match search_by_name env retrieval_query "docs".data top_k_docs s2 with
      | (.error _, s3) => ((style_res.map Prod.snd, []), s3)
      | (.ok doc_res, s3) => ((style_res.map Prod.snd, doc_res.map Prod.snd), s3)
  else (([], []), s)

/-- Embedding of `comment_engine.generate_long_form_comment(post,
embedder, top_k_style, top_k_docs, fetch_status)`: clean, chunk (capped
at `MAX_CHUNKS`), rank chunks by embedding similarity, retrieve style and
doc context on success, generate with Gemini; any exception (including
`MemoryError`) falls back to the lightweight path on truncated content. -/
def generate_long_form_comment (env : Env) (post : NormalizedPost)
    (top_k_style top_k_docs : Nat) (fetch_status : Str) : PipeM Str := fun s =>
  let title := pyStrip post.title
  let content := pyStrip post.content
  if longformChunks post = [] then
    generate_lightweight_comment env post title (content.take 500) s
  else
    match embed_chunked env (longformChunks post) (longformQuery post) 3 s with
    | (.error _, s1) => generate_lightweight_comment env post title (content.take 500) s1
    | (.ok top_chunks, s1) =>
      match longformRetrieve env title top_chunks fetch_status top_k_style top_k_docs s1 with
      | ((style_examples, doc_facts), s2) =>
        match generate_comment_with_gemini env title
            ((joinSep " ".data (top_chunks.map Prod.fst)).take 1500) doc_facts
            style_examples [] 1 s2 with
        | (.ok c, s3) => (.ok c, s3)
        | (.error _, s3) => generate_lightweight_comment env post title (content.take 500) s3

/-- Embedding of `comment_engine.generate_comment(post, embedder,
top_k_style, top_k_docs, fetch_status)`: the Admission Controller and the
Platform Router.  Content above `MAX_CONTENT_LEN` is rejected with the
413 `HTTPException` before anything else happens; Twitter always takes
the pure retrieval-free path; Reddit takes the static-context Gemini
path; short GitHub content and the default take the lightweight path;
long content takes the embedding path. -/
def generate_comment (env : Env) (post : NormalizedPost) (top_k_style top_k_docs : Nat)
    (fetch_status : Str) : PipeM Str := fun s =>
  let content := pyStrip post.content
  let title := pyStrip post.title
  let content_len := content.length
  if MAX_CONTENT_LEN < content_len then (.error contentTooLargeExc, s)
  else if post.platform = "twitter".data then
    (.ok (generate_twitter_comment post fetch_status), s)
  else if post.platform = "reddit".data then
    generate_reddit_comment env post title content s
  else if post.platform = "github".data ∧ content_len < 1500 then
    generate_lightweight_comment env post title content s
  else if 1500 ≤ content_len then
    generate_long_form_comment env post top_k_style top_k_docs fetch_status s
  else
    generate_lightweight_comment env post title content s

/-- Embedding of `app.detect_platform(url)`. -/
def detect_platform (url : Str) : Str :=
  let u := pyLower url
  if containsSub u "twitter.com".data || containsSub u "x.com".data then "twitter".data
  else if containsSub u "reddit.com".data then "reddit".data
  else if containsSub u "github.com".data then "github".data
  else if containsSub u "news.ycombinator.com".data then "hackernews".data
  else if containsSub u "youtube.com".data || containsSub u "youtu.be".data then "youtube".data
  else if containsSub u "substack.com".data then "substack".data
  else "reddit".data

/-- Embedding of `app.generate_safe_fallback(post)`. -/
def generate_safe_fallback (post : NormalizedPost) : Str :=
  if post.platform = "twitter".data then "Thanks for sharing this!".data
  else "This is an interesting discussion. Thanks for starting this thread!".data

/-- Request body of `POST /ml/generate-comment`. -/
structure GenerateCommentRequest where
  post_url : Str
  top_k_style : Nat := 3
  top_k_docs : Nat := 3
  source : Str := "api".data
deriving DecidableEq, Repr

/-- Response of the endpoint: a 200 JSON comment or an HTTP error. -/
inductive HttpResponse
  | ok (comment : Str)
  | httpError (status : Nat) (detail : Str)
deriving DecidableEq, Repr

/-- The `/docs` placeholder response text. -/
def docsPlaceholder : Str :=
  ("This is a placeholder response. The /docs UI is for testing only. " ++
   "Production calls use \x27source=api\x27 and run the full ML pipeline.").data

/-- The `NormalizedPost` that the `app.generate` endpoint handler builds
from the request URL and the fetch collaborator's result. -/
def endpointPost (env : Env) (req : GenerateCommentRequest) : NormalizedPost :=
  { id := req.post_url, platform := detect_platform req.post_url,
    title := env.fetchResult.title, content := env.fetchResult.text, url := req.post_url }

/-- Embedding of the `app.generate` endpoint handler.  The inner
`except MemoryError` and `except Exception` handlers both convert any
exception raised by `generate_comment` into a 200 response carrying
`generate_safe_fallback(post)`.  Since FastAPI's `HTTPException` is a
subclass of `Exception`, the 413 admission rejection raised inside
`generate_comment` is caught by that same inner `except Exception`
handler, so the outer `except HTTPException: raise` and the outer
500-raising catch-all never see it; and since `fetch_post_content`
catches every exception class internally, nothing in the outer region
raises either, leaving the outer handlers unreachable. -/
def generate_endpoint (env : Env) (req : GenerateCommentRequest) (s : PState) :
    HttpResponse × PState :=
  if req.source = "docs".data then (.ok docsPlaceholder, s)
  else
    match generate_comment env (endpointPost env req) req.top_k_style req.top_k_docs
      env.fetchResult.fetch_status s with
    | (.ok c, s1) => (.ok c, s1)
    | (.error _, s1) => (.ok (generate_safe_fallback (endpointPost env req)), s1)

/-- Length of the comment of a successful result (0 on an exception);
used to state concrete evaluations of the pipeline. -/
def okLength : Except PyExc Str → Nat
  | .ok c => c.length
  | .error _ => 0

/-- Oracle environment with no API key and every backend failing; the
concrete evaluations below use it where backend behaviour is irrelevant. -/
def envNoKey : Env where
  apiKeySet := false
  primaryModel := "gemini-2.0-flash".data
  genResult := fun _ => .error ⟨.otherExc, []⟩
  encodeFun := fun _ => .error ⟨.otherExc, []⟩
  cosSim := fun _ _ => 0
  loadDisk := fun _ => .error ⟨.otherExc, []⟩
  fetchResult := ⟨[], [], "success".data, 0⟩

/-- Environment whose generative backend reports `NotFound` (a
configuration error) on every call. -/
def envConfigErr : Env :=
  { envNoKey with
    apiKeySet := true
    genResult := fun _ => .error ⟨.notFound, "404 model not found".data⟩ }

/-- Environment with a loadable one-record index and a working embedding
backend. -/
def envIdx : Env :=
  { envNoKey with
    apiKeySet := true
    encodeFun := fun _ => .ok (fun _ => [1])
    loadDisk := fun _ => .ok ([[1]], [{ id := some "m".data }]) }

/-- Reddit post whose content is a single 301-character capitalized word. -/
def postBigTopic : NormalizedPost :=
  ⟨"u".data, "reddit".data, [], 'A' :: List.replicate 300 'a', "u".data⟩

/-- Reddit post whose content is 5001 characters long (over
`MAX_CONTENT_LEN`). -/
def postTooLong : NormalizedPost :=
  ⟨"u".data, "reddit".data, [], List.replicate 5001 'a', "u".data⟩

/-- A small Twitter post (spec scenario: platform twitter, short text). -/
def postTwitter : NormalizedPost :=
  ⟨"t1".data, "twitter".data, [], "great tool, thanks!".data,
   "https://twitter.com/a".data⟩

/-- URL of the oversized-post endpoint evaluation. -/
def urlTooLong : Str := "https://reddit.com/r/demo/comments/abc".data

/-- Request of the oversized-post endpoint evaluation. -/
def reqTooLong : GenerateCommentRequest := ⟨urlTooLong, 3, 3, "api".data⟩

/-- Environment whose fetch collaborator returns 5001 characters of
content for the request above. -/
def envTooLong : Env :=
  { envNoKey with fetchResult := ⟨List.replicate 5001 'a', [], "success".data, 5001⟩ }

/-- The `NormalizedPost` that `app.generate` builds from `reqTooLong` and
`envTooLong` (reddit platform detected from the URL, fetched content of
5001 characters). -/
def postTooLongFetched : NormalizedPost :=
  ⟨urlTooLong, "reddit".data, [], List.replicate 5001 'a', urlTooLong⟩

/-- A draft that is both too short and contains a generic phrase, with
meaningful word overlap with the post (claim C7's counterexample input). -/
def tooShortDraft : Str := "many developers encounter stuff".data

/-! ## Helper lemmas -/

theorem length_dropWhile_le (p : Char → Bool) (l : Str) :
    (l.dropWhile p).length ≤ l.length := by
  induction l with
  | nil => simp
  | cons a t ih =>
    by_cases hpa : p a
    · simp only [List.dropWhile_cons, hpa, if_true, List.length_cons]
      omega
    · simp [List.dropWhile_cons, hpa]

theorem pyStrip_length_le (s : Str) : (pyStrip s).length ≤ s.length := by
  unfold pyStrip
  have h1 := length_dropWhile_le isPySpace s
  have h2 := length_dropWhile_le isPySpace (s.dropWhile isPySpace).reverse
  simp only [List.length_reverse] at *
  omega

theorem dropWhile_replicate_a (n : Nat) :
    (List.replicate n 'a').dropWhile isPySpace = List.replicate n 'a' := by
  have hn : isPySpace 'a' = false := by decide
  induction n with
  | zero => simp
  | succ n ih => simp [List.replicate_succ, List.dropWhile_cons, hn, ih]

theorem pyStrip_replicate_a (n : Nat) :
    pyStrip (List.replicate n 'a') = List.replicate n 'a' := by
  unfold pyStrip
  rw [dropWhile_replicate_a, List.reverse_replicate, dropWhile_replicate_a,
    List.reverse_replicate]

theorem str_append_ne (a b : Str) (h : a ≠ []) : a ++ b ≠ [] := by
  intro hab
  exact h (List.append_eq_nil.mp hab).1

theorem rfindChar_lt_length (s : Str) (c : Char) : rfindChar s c < (s.length : Int) := by
  cases h : s.reverse.findIdx? (fun x => x = c) with
  | none =>
    unfold rfindChar
    rw [h]
    show (-1 : Int) < (s.length : Int)
    have : 0 ≤ (s.length : Int) := Int.ofNat_nonneg _
    omega
  | some i =>
    unfold rfindChar
    rw [h]
    show (s.length : Int) - 1 - (i : Int) < (s.length : Int)
    have : 0 ≤ (i : Int) := Int.ofNat_nonneg _
    omega

/-! ## Chunking (claim C10) -/

theorem chunkEndPos_le (text : Str) (start : Nat) :
    chunkEndPos text 1000 start ≤ start + 1000 := by
  unfold chunkEndPos
  have hlp := rfindChar_lt_length ((text.drop start).take 1000) '.'
  have hlp2 := rfindChar_lt_length ((text.drop start).take 1000) '!'
  have hlp3 := rfindChar_lt_length ((text.drop start).take 1000) '?'
  have hceLen : ((text.drop start).take 1000).length ≤ 1000 := by
    simp [List.length_take]
  simp only []
  split
  · split
    · rename_i hadj
      omega
    · omega
  · omega

theorem chunkEndPos_ge (text : Str) (start : Nat) :
    start + 902 ≤ chunkEndPos text 1000 start := by
  unfold chunkEndPos
  simp only []
  split
  · split
    · rename_i hadj
      omega
    · omega
  · omega

theorem chunkStep_snd (text : Str) (start : Nat) (acc : List Str)
    (hacc : ∀ ch ∈ acc, ch ≠ [] ∧ ch.length ≤ 1000) :
    (∀ ch ∈ (chunkStep text 1000 150 start acc).2, ch ≠ [] ∧ ch.length ≤ 1000) ∧
    (chunkStep text 1000 150 start acc).2.length ≤ acc.length + 1 ∧
    acc.length ≤ (chunkStep text 1000 150 start acc).2.length := by
  have hchunkLen : (pyStrip ((text.drop start).take (chunkEndPos text 1000 start - start))).length
      ≤ 1000 := by
    have h1 := pyStrip_length_le ((text.drop start).take (chunkEndPos text 1000 start - start))
    have h2 : ((text.drop start).take (chunkEndPos text 1000 start - start)).length ≤
        chunkEndPos text 1000 start - start := by simp [List.length_take]
    have h3 := chunkEndPos_le text start
    omega
  unfold chunkStep
  simp only []
  refine ⟨?_, ?_, ?_⟩
  · split
    · exact hacc
    · intro ch hch
      rcases List.mem_append.mp hch with h | h
      · exact hacc ch h
      · rcases List.mem_singleton.mp h with rfl
        rename_i hne
        exact ⟨hne, hchunkLen⟩
  · split
    · omega
    · simp
  · split
    · omega
    · simp

theorem chunkStep_fst (text : Str) (start : Nat) (acc : List Str) :
    start + 752 ≤ (chunkStep text 1000 150 start acc).1 := by
  unfold chunkStep
  simp only []
  have := chunkEndPos_ge text start
  omega

theorem chunkLoop_spec (fuel : Nat) : ∀ (text : Str) (max_chunks start : Nat) (acc : List Str),
    (∀ ch ∈ acc, ch ≠ [] ∧ ch.length ≤ 1000) → acc.length ≤ max_chunks →
    text.length - start < fuel →
    ∃ cs, chunkLoop text 1000 150 max_chunks fuel start acc = some cs ∧
      cs.length ≤ max_chunks ∧ ∀ ch ∈ cs, ch ≠ [] ∧ ch.length ≤ 1000 := by
  induction fuel with
  | zero =>
    intro text max_chunks start acc _ _ hfuel
    omega
  | succ fuel ih =>
    intro text max_chunks start acc hacc haccLen hfuel
    unfold chunkLoop
    by_cases hcond : start < text.length ∧ acc.length < max_chunks
    · rw [if_pos hcond]
      obtain ⟨hstepP, hstepLe, _⟩ := chunkStep_snd text start acc hacc
      have hstepLen : (chunkStep text 1000 150 start acc).2.length ≤ max_chunks := by omega
      by_cases hstop : text.length ≤ (chunkStep text 1000 150 start acc).1
      · rw [if_pos hstop]
        exact ⟨_, rfl, hstepLen, hstepP⟩
      · rw [if_neg hstop]
        apply ih text max_chunks _ _ hstepP hstepLen
        have := chunkStep_fst text start acc
        omega
    · rw [if_neg hcond]
      exact ⟨acc, rfl, haccLen, hacc⟩

theorem chunk_text_spec (text : Str) (max_chunks : Nat) (hmax : 1 ≤ max_chunks) :
    ∃ cs, chunk_text text 1000 150 max_chunks = some cs ∧
      cs.length ≤ max_chunks ∧ ∀ ch ∈ cs, ch ≠ [] ∧ ch.length ≤ 1000 := by
  unfold chunk_text
  by_cases h0 : text = []
  · rw [if_pos h0]
    exact ⟨[], rfl, by simp, by simp⟩
  · rw [if_neg h0]
    by_cases h1 : text.length ≤ 1000
    · rw [if_pos h1]
      refine ⟨[text], rfl, by simpa using hmax, ?_⟩
      intro ch hch
      rcases List.mem_singleton.mp hch with rfl
      exact ⟨h0, h1⟩
    · rw [if_neg h1]
      exact chunkLoop_spec (text.length + 1) text max_chunks 0 [] (by simp) (by simp) (by omega)

/-! ## Non-emptiness of the template comment builders -/

theorem fallbackOpening_ne (mt act : Option Str) (pw kp : List Str) (text : Str) :
    fallbackOpening mt act pw kp text ≠ [] := by
  unfold fallbackOpening
  split
  all_goals try split
  all_goals try simp only []
  all_goals try split
  all_goals repeat apply str_append_ne
  all_goals decide

theorem fallbackNuclear_ne (mt : Option Str) : fallbackNuclear mt ≠ [] := by
  unfold fallbackNuclear
  split
  all_goals repeat apply str_append_ne
  all_goals decide

theorem generate_enhanced_fallback_ne (t c : Str) (kp ids : List Str) :
    generate_enhanced_fallback t c kp ids ≠ [] := by
  unfold generate_enhanced_fallback
  simp only []
  split
  · exact fallbackNuclear_ne _
  · rw [show ∀ (x y z sep : Str), joinSep sep [x, y, z] = x ++ sep ++ (y ++ sep ++ z) from
      fun x y z sep => rfl]
    exact str_append_ne _ _ (str_append_ne _ _ (fallbackOpening_ne _ _ _ _ _))

theorem build_twitter_comment_ne (text intent : Str) (n : Nat) :
    build_twitter_comment text intent n ≠ [] := by
  unfold build_twitter_comment
  simp only []
  split_ifs
  all_goals repeat apply str_append_ne
  all_goals decide

theorem generate_twitter_comment_ne (post : NormalizedPost) (fs : Str) :
    generate_twitter_comment post fs ≠ [] := by
  unfold generate_twitter_comment
  simp only []
  split_ifs
  all_goals first
    | decide
    | exact build_twitter_comment_ne _ _ _

/-! ## Generation Engine soundness -/

theorem validate_true_ne (d t p : Str)
    (h : (validate_comment_quality d t p).1 = true) : d ≠ [] := by
  intro hd
  subst hd
  norm_num [validate_comment_quality, MIN_COMMENT_LENGTH] at h

theorem try_generate_shape (env : Env) (m sp up : Str) (a : Nat) (s : PState) :
    ∃ v, try_generate_with_model env m sp up a s =
      (.ok v, { s with genCalls := s.genCalls + 1,
                       events := s.events ++ [Ev.genCall m a] }) := by
  unfold try_generate_with_model
  simp only []
  cases env.genResult s.genCalls with
  | ok raw => exact ⟨_, rfl⟩
  | error e => exact ⟨_, rfl⟩

theorem runModelAttempts_sound (env : Env) (ctx : EngineCtx) (model : Str) :
    ∀ (attemptsLeft attempt : Nat) (lastErr : Option Str) (s : PState),
    ∃ v s', runModelAttempts env ctx model attempt attemptsLeft lastErr s = (.ok v, s') ∧
      ∀ cm, v.1 = some cm →
        (validate_comment_quality cm ctx.post_title ctx.post_content).1 = true := by
  intro attemptsLeft
  induction attemptsLeft with
  | zero =>
    intro attempt lastErr s
    exact ⟨(none, lastErr), s, rfl, by simp⟩
  | succ n ih =>
    intro attempt lastErr s
    unfold runModelAttempts
    simp only []
    cases hg : env.genResult s.genCalls with
    | error e =>
      simp only [try_generate_with_model, hg]
      split_ifs with h1 h2 h3 h4
      · exact ⟨(none, some (classify_error e)), _, rfl, by simp⟩
      · exact ih (attempt + 1) (some (classify_error e)) _
      · exact ⟨(none, some (classify_error e)), _, rfl, by simp⟩
      · exact ih (attempt + 1) (some (classify_error e)) _
      · exact ⟨(none, some (classify_error e)), _, rfl, by simp⟩
    | ok raw =>
      simp only [try_generate_with_model, hg, Option.getD_some]
      rcases hv : validate_comment_quality (postprocessComment raw) ctx.post_title
        ctx.post_content with ⟨b, reason, det⟩
      cases b with
      | true =>
        simp only []
        refine ⟨(some (postprocessComment raw), lastErr), _, rfl, ?_⟩
        intro cm hcm
        cases hcm
        rw [hv]
      | false =>
        simp only []
        split_ifs with h1 h2
        · exact ih (attempt + 1) (some "quality_failed".data) _
        · exact ih (attempt + 1) (some "quality_failed".data) _
        · exact ⟨(none, some "quality_failed".data), _, rfl, by simp⟩

theorem runModels_sound (env : Env) (ctx : EngineCtx) :
    ∀ (models : List Str) (lastErr : Option Str) (s : PState),
    ∃ v s', runModels env ctx models lastErr s = (.ok v, s') ∧
      ∀ cm, v.1 = some cm →
        (validate_comment_quality cm ctx.post_title ctx.post_content).1 = true := by
  intro models
  induction models with
  | nil =>
    intro lastErr s
    exact ⟨(none, lastErr), s, rfl, by simp⟩
  | cons m ms ih =>
    intro lastErr s
    unfold runModels
    obtain ⟨v, s1, heq, hprop⟩ := runModelAttempts_sound env ctx m (ctx.max_retries + 1) 0 lastErr s
    rcases v with ⟨c?, le'⟩
    rw [heq]
    cases c? with
    | some cm => exact ⟨(some cm, le'), s1, rfl, hprop⟩
    | none => exact ih le' s1

/-- Either the API key is missing and the engine raises `ValueError`
before any attempt, or it returns a non-empty comment. -/
theorem gcwg_spec (env : Env) (t c : Str) (df se : List MetaRec) (sub : Str) (mr : Nat)
    (s : PState) :
    (env.apiKeySet = false ∧
      generate_comment_with_gemini env t c df se sub mr s = (.error valueErrorNoKey, s)) ∨
    (∃ cm s', generate_comment_with_gemini env t c df se sub mr s = (.ok cm, s') ∧ cm ≠ []) := by
  unfold generate_comment_with_gemini
  cases hkey : env.apiKeySet with
  | false =>
    left
    simp [hkey]
  | true =>
    right
    simp only [hkey, Bool.not_true, Bool.false_eq_true, if_false]
    obtain ⟨v, s1, heq, hprop⟩ := runModels_sound env
      (engineContext t c df se sub mr).1 (env.primaryModel :: GEMINI_FALLBACK_MODELS) none s
    rcases v with ⟨c?, le'⟩
    rw [heq]
    cases c? with
    | some cm =>
      exact ⟨cm, s1, rfl, validate_true_ne cm _ _ (hprop cm rfl)⟩
    | none =>
      exact ⟨_, s1, rfl, generate_enhanced_fallback_ne _ _ _ _⟩

/-! ## Pipeline paths always produce one non-empty comment -/

theorem generate_reddit_comment_ok (env : Env) (post : NormalizedPost) (title content : Str)
    (s : PState) :
    ∃ cm s', generate_reddit_comment env post title content s = (.ok cm, s') ∧ cm ≠ [] := by
  unfold generate_reddit_comment
  split_ifs with h0
  · exact ⟨_, s, rfl, by decide⟩
  · simp only []
    rcases gcwg_spec env title content
        ((get_relevant_context_snippets content title 3).map snippetToFact) []
        (extract_subreddit post.url) 2 s with ⟨_, heq⟩ | ⟨cm, s', heq, hne⟩
    · rw [heq]
      exact ⟨_, s, rfl, generate_enhanced_fallback_ne _ _ _ _⟩
    · rw [heq]
      exact ⟨cm, s', rfl, hne⟩

theorem generate_lightweight_comment_ok (env : Env) (post : NormalizedPost)
    (title content : Str) (s : PState) :
    ∃ cm s', generate_lightweight_comment env post title content s = (.ok cm, s') ∧ cm ≠ [] := by
  unfold generate_lightweight_comment
  split_ifs with h0
  · exact ⟨_, s, rfl, by decide⟩
  · simp only []
    rcases gcwg_spec env title content
        ((get_relevant_context_snippets content title 2).map snippetToFact) [] [] 1 s with
      ⟨_, heq⟩ | ⟨cm, s', heq, hne⟩
    · rw [heq]
      exact ⟨_, s, rfl, generate_enhanced_fallback_ne _ _ _ _⟩
    · rw [heq]
      exact ⟨cm, s', rfl, hne⟩

theorem generate_long_form_comment_ok (env : Env) (post : NormalizedPost)
    (tks tkd : Nat) (fs : Str) (s : PState) :
    ∃ cm s', generate_long_form_comment env post tks tkd fs s = (.ok cm, s') ∧ cm ≠ [] := by
  unfold generate_long_form_comment
  simp only []
  split_ifs with hchunks
  · exact generate_lightweight_comment_ok env post _ _ s
  · rcases hec : embed_chunked env (longformChunks post) (longformQuery post) 3 s with ⟨r, s1⟩
    rcases r with e | top_chunks
    · exact generate_lightweight_comment_ok env post _ _ s1
    · rcases hrt : longformRetrieve env (pyStrip post.title) top_chunks fs tks tkd s1 with
        ⟨⟨style_examples, doc_facts⟩, s2⟩
      simp only []
      rw [hrt]
      simp only []
      rcases gcwg_spec env (pyStrip post.title)
          (List.take 1500 (joinSep ([' '] : Str) (List.map Prod.fst top_chunks))) doc_facts
          style_examples [] 1 s2 with ⟨_, heq⟩ | ⟨cm, s', heq, hne⟩
      · rw [heq]
        exact generate_lightweight_comment_ok env post _ _ s2
      · rw [heq]
        exact ⟨cm, s', rfl, hne⟩

/-! ## Event traces of the Generation Engine (claim C6) -/

theorem runModelAttempts_events (env : Env) (ctx : EngineCtx) (model : Str) :
    ∀ (k attempt : Nat) (lastErr : Option Str) (s : PState),
    ∃ r s' tail, runModelAttempts env ctx model attempt k lastErr s = (r, s') ∧
      s'.events = s.events ++ tail ∧
      (∀ e ∈ tail, ∃ a, e = Ev.genCall model a) ∧
      (∀ n, k = n + 1 → ∃ tail', tail = Ev.genCall model attempt :: tail') := by
  intro k
  induction k with
  | zero =>
    intro attempt lastErr s
    refine ⟨_, s, [], rfl, by simp, by simp, ?_⟩
    intro n h
    exact (Nat.succ_ne_zero n h.symm).elim
  | succ k ih =>
    intro attempt lastErr s
    unfold runModelAttempts
    simp only []
    cases hg : env.genResult s.genCalls with
    | error e =>
      simp only [try_generate_with_model, hg]
      split_ifs with h1 h2 h3 h4
      · exact ⟨_, _, [Ev.genCall model attempt], rfl, by simp, by simp, fun n h => ⟨[], rfl⟩⟩
      · obtain ⟨r, s', tail, heq, hev, hall, _⟩ := ih (attempt + 1) (some (classify_error e)) _
        refine ⟨r, s', Ev.genCall model attempt :: tail, heq, ?_, ?_, fun n h => ⟨tail, rfl⟩⟩
        · rw [hev]
          simp
        · intro ev hev'
          rcases List.mem_cons.mp hev' with rfl | h
          · exact ⟨attempt, rfl⟩
          · exact hall ev h
      · exact ⟨_, _, [Ev.genCall model attempt], rfl, by simp, by simp, fun n h => ⟨[], rfl⟩⟩
      · obtain ⟨r, s', tail, heq, hev, hall, _⟩ := ih (attempt + 1) (some (classify_error e)) _
        refine ⟨r, s', Ev.genCall model attempt :: tail, heq, ?_, ?_, fun n h => ⟨tail, rfl⟩⟩
        · rw [hev]
          simp
        · intro ev hev'
          rcases List.mem_cons.mp hev' with rfl | h
          · exact ⟨attempt, rfl⟩
          · exact hall ev h
      · exact ⟨_, _, [Ev.genCall model attempt], rfl, by simp, by simp, fun n h => ⟨[], rfl⟩⟩
    | ok raw =>
      simp only [try_generate_with_model, hg, Option.getD_some]
      rcases hv : validate_comment_quality (postprocessComment raw) ctx.post_title
        ctx.post_content with ⟨b, reason, det⟩
      cases b with
      | true =>
        simp only []
        exact ⟨_, _, [Ev.genCall model attempt], rfl, by simp, by simp, fun n h => ⟨[], rfl⟩⟩
      | false =>
        simp only []
        split_ifs with h1 h2
        · obtain ⟨r, s', tail, heq, hev, hall, _⟩ := ih (attempt + 1) (some "quality_failed".data) _
          refine ⟨r, s', Ev.genCall model attempt :: tail, heq, ?_, ?_, fun n h => ⟨tail, rfl⟩⟩
          · rw [hev]
            simp
          · intro ev hev'
            rcases List.mem_cons.mp hev' with rfl | h
            · exact ⟨attempt, rfl⟩
            · exact hall ev h
        · obtain ⟨r, s', tail, heq, hev, hall, _⟩ := ih (attempt + 1) (some "quality_failed".data) _
          refine ⟨r, s', Ev.genCall model attempt :: tail, heq, ?_, ?_, fun n h => ⟨tail, rfl⟩⟩
          · rw [hev]
            simp
          · intro ev hev'
            rcases List.mem_cons.mp hev' with rfl | h
            · exact ⟨attempt, rfl⟩
            · exact hall ev h
        · exact ⟨_, _, [Ev.genCall model attempt], rfl, by simp, by simp, fun n h => ⟨[], rfl⟩⟩

theorem runModels_events (env : Env) (ctx : EngineCtx) :
    ∀ (models : List Str) (lastErr : Option Str) (s : PState),
    ∃ r s' tail, runModels env ctx models lastErr s = (r, s') ∧
      s'.events = s.events ++ tail ∧
      (∀ e ∈ tail, ∃ m a, m ∈ models ∧ e = Ev.genCall m a) ∧
      (∀ m ms, models = m :: ms → ∃ tail', tail = Ev.genCall m 0 :: tail') := by
  intro models
  induction models with
  | nil =>
    intro lastErr s
    refine ⟨_, s, [], rfl, by simp, by simp, ?_⟩
    intro m ms h
    cases h
  | cons m ms ih =>
    intro lastErr s
    unfold runModels
    obtain ⟨r1, s1, tail1, heq1, hev1, hall1, hhd1⟩ :=
      runModelAttempts_events env ctx m (ctx.max_retries + 1) 0 lastErr s
    rw [heq1]
    obtain ⟨tail1', rfl⟩ := hhd1 ctx.max_retries rfl
    rcases r1 with e | ⟨c?, le'⟩
    · refine ⟨_, s1, _, rfl, hev1, ?_, fun m' ms' h => by cases h; exact ⟨tail1', rfl⟩⟩
      intro ev hev'
      obtain ⟨a, rfl⟩ := hall1 ev hev'
      exact ⟨m, a, List.mem_cons_self m ms, rfl⟩
    · cases c? with
      | some cm =>
        refine ⟨_, s1, _, rfl, hev1, ?_, fun m' ms' h => by cases h; exact ⟨tail1', rfl⟩⟩
        intro ev hev'
        obtain ⟨a, rfl⟩ := hall1 ev hev'
        exact ⟨m, a, List.mem_cons_self m ms, rfl⟩
      | none =>
        obtain ⟨r2, s2, tail2, heq2, hev2, hall2, _⟩ := ih le' s1
        refine ⟨r2, s2, (Ev.genCall m 0 :: tail1') ++ tail2, heq2, ?_, ?_,
          fun m' ms' h => by cases h; exact ⟨tail1' ++ tail2, rfl⟩⟩
        · rw [hev2, hev1]
          simp
        · intro ev hev'
          rcases List.mem_append.mp hev' with h | h
          · obtain ⟨a, rfl⟩ := hall1 ev h
            exact ⟨m, a, List.mem_cons_self m ms, rfl⟩
          · obtain ⟨m', a, hm', rfl⟩ := hall2 ev h
            exact ⟨m', a, List.mem_cons_of_mem m hm', rfl⟩

theorem runModelAttempts_config_step (env : Env) (ctx : EngineCtx) (model : Str)
    (attempt n : Nat) (lastErr : Option Str) (s : PState) (e : PyExc)
    (hres : env.genResult s.genCalls = .error e)
    (hcls : classify_error e = "config_error".data) :
    runModelAttempts env ctx model attempt (n + 1) lastErr s =
      (.ok (none, some "config_error".data),
       { s with genCalls := s.genCalls + 1,
                events := s.events ++ [Ev.genCall model attempt] }) := by
  unfold runModelAttempts
  simp only []
  simp only [try_generate_with_model, hres]
  simp [hcls]

theorem generate_comment_ok (env : Env) (post : NormalizedPost) (tks tkd : Nat) (fs : Str)
    (s : PState) (hadm : (pyStrip post.content).length ≤ MAX_CONTENT_LEN) :
    ∃ cm s', generate_comment env post tks tkd fs s = (.ok cm, s') ∧ cm ≠ [] := by
  unfold generate_comment
  simp only []
  split_ifs with h1 h2 h3 h4 h5
  · omega
  · exact ⟨_, s, rfl, generate_twitter_comment_ne post fs⟩
  · exact generate_reddit_comment_ok env post _ _ s
  · exact generate_lightweight_comment_ok env post _ _ s
  · exact generate_long_form_comment_ok env post tks tkd fs s
  · exact generate_lightweight_comment_ok env post _ _ s

/-! ## Claim theorems -/

/-- C2: for every post whose stripped content length exceeds
`MAX_CONTENT_LEN`, `generate_comment` raises the 413 content-too-large
`HTTPException` and leaves the state untouched: no index load, no
embedding call and no generative-model call is performed (the event
trail and the oracle counters are exactly those of the input state), and
the check is a single synchronous comparison that is never retried. -/
theorem admission_rejects_oversized_before_any_call (env : Env) (post : NormalizedPost)
    (tks tkd : Nat) (fs : Str) (s : PState)
    (h : MAX_CONTENT_LEN < (pyStrip post.content).length) :
    generate_comment env post tks tkd fs s = (.error contentTooLargeExc, s) := by
  unfold generate_comment
  simp only []
  rw [if_pos h]

/-- Witness for C2: a 5001-character reddit post is rejected with the
413 exception and an unchanged state. -/
theorem admission_rejects_oversized_before_any_call_witness :
    MAX_CONTENT_LEN < (pyStrip postTooLong.content).length ∧
    generate_comment envNoKey postTooLong 3 3 "success".data PState.init =
      (.error contentTooLargeExc, PState.init) := by
  have h : MAX_CONTENT_LEN < (pyStrip postTooLong.content).length := by
    rw [show postTooLong.content = List.replicate 5001 'a' from rfl, pyStrip_replicate_a,
      List.length_replicate]
    decide
  exact ⟨h, admission_rejects_oversized_before_any_call envNoKey postTooLong 3 3 _ _ h⟩

/-- C3: for every post with platform `twitter`, the pipeline records no
event at all — in particular no embedding-retrieval call — and, whenever
the post is admitted, it routes to the pure retrieval-free Twitter
strategy. -/
theorem twitter_never_uses_retrieval (env : Env) (post : NormalizedPost) (tks tkd : Nat)
    (fs : Str) (s : PState) (h : post.platform = "twitter".data) :
    (generate_comment env post tks tkd fs s).2.events = s.events ∧
    ((pyStrip post.content).length ≤ MAX_CONTENT_LEN →
      (generate_comment env post tks tkd fs s).1 = .ok (generate_twitter_comment post fs)) := by
  unfold generate_comment
  simp only []
  split_ifs with h1
  · exact ⟨rfl, fun hle => by omega⟩
  · exact ⟨rfl, fun _ => rfl⟩

/-- Witness for C3: a concrete Twitter post leaves the event trail
empty and yields the Twitter-strategy comment. -/
theorem twitter_never_uses_retrieval_witness :
    (generate_comment envNoKey postTwitter 3 3 "success".data PState.init).2.events =
      PState.init.events ∧
    ((pyStrip postTwitter.content).length ≤ MAX_CONTENT_LEN →
      (generate_comment envNoKey postTwitter 3 3 "success".data PState.init).1 =
        .ok (generate_twitter_comment postTwitter "success".data)) :=
  twitter_never_uses_retrieval envNoKey postTwitter 3 3 "success".data PState.init rfl

/-- Counterexample to C5 as stated: with `GEMINI_API_KEY` unset the
Generation Engine raises a `ValueError` past its boundary instead of
returning an accepted comment or falling back. -/
theorem engine_raises_without_key :
    generate_comment_with_gemini envNoKey "t".data "c".data [] [] [] 2 PState.init =
      (.error valueErrorNoKey, PState.init) := rfl

/-- C5 (amended): whenever the API key is configured, the Generation
Engine never raises past its own boundary — it always returns a comment
(an accepted draft or the Fallback Synthesizer's output). -/
theorem engine_never_raises_when_configured (env : Env) (t c : Str) (df se : List MetaRec)
    (sub : Str) (mr : Nat) (s : PState) (hkey : env.apiKeySet = true) :
    ∃ cm s', generate_comment_with_gemini env t c df se sub mr s = (.ok cm, s') := by
  rcases gcwg_spec env t c df se sub mr s with ⟨hf, _⟩ | ⟨cm, s', heq, _⟩
  · rw [hkey] at hf
    cases hf
  · exact ⟨cm, s', heq⟩

/-- Witness for C5 (amended): with the key configured and a backend that
always fails with a configuration error, the engine still returns. -/
theorem engine_never_raises_when_configured_witness :
    envConfigErr.apiKeySet = true ∧
    ∃ cm s', generate_comment_with_gemini envConfigErr "t".data "c".data [] [] [] 2
      PState.init = (.ok cm, s') :=
  ⟨rfl, engine_never_raises_when_configured envConfigErr "t".data "c".data [] [] [] 2
    PState.init rfl⟩

/-- C6: when the primary model's first attempt fails with an error
classified as a configuration error, the engine makes exactly one call
to the primary model and immediately advances to the next model of the
static chain (`gemini-1.5-flash`), starting it at attempt 0 with its
full retry budget; no later call ever uses the primary model again. -/
theorem config_error_advances_model_chain (env : Env) (t c : Str) (df se : List MetaRec)
    (sub : Str) (mr : Nat) (s : PState) (e : PyExc)
    (hkey : env.apiKeySet = true)
    (hprim : env.primaryModel = "gemini-2.0-flash".data)
    (hres : env.genResult s.genCalls = .error e)
    (hcls : classify_error e = "config_error".data) :
    ∃ rest, (generate_comment_with_gemini env t c df se sub mr s).2.events =
      s.events ++ Ev.genCall "gemini-2.0-flash".data 0 ::
        Ev.genCall "gemini-1.5-flash".data 0 :: rest ∧
      ∀ a, Ev.genCall "gemini-2.0-flash".data a ∉ rest := by
  unfold generate_comment_with_gemini
  simp only [hkey, Bool.not_true, Bool.false_eq_true, if_false]
  rw [hprim]
  unfold runModels
  rw [runModelAttempts_config_step env _ "gemini-2.0-flash".data 0 _ none s e hres hcls]
  simp only []
  obtain ⟨r2, s2, tail2, heq2, hev2, hall2, hhd2⟩ := runModels_events env
    (engineContext t c df se sub mr).1 GEMINI_FALLBACK_MODELS (some "config_error".data)
    { s with genCalls := s.genCalls + 1,
             events := s.events ++ [Ev.genCall "gemini-2.0-flash".data 0] }
  rw [show (['c','o','n','f','i','g','_','e','r','r','o','r'] : Str) = "config_error".data
      from rfl,
    show (['g','e','m','i','n','i','-','2','.','0','-','f','l','a','s','h'] : Str) =
      "gemini-2.0-flash".data from rfl,
    show (['g','e','m','i','n','i','-','1','.','5','-','f','l','a','s','h'] : Str) =
      "gemini-1.5-flash".data from rfl]
  rw [heq2]
  obtain ⟨tail2', rfl⟩ := hhd2 "gemini-1.5-flash".data ["gemini-1.5-pro".data] rfl
  refine ⟨tail2', ?_, ?_⟩
  · rcases r2 with e2 | ⟨c?, le'⟩
    · simp only []
      rw [hev2]
      simp
    · rcases c? with _ | cm
      · simp only []
        rw [hev2]
        simp
      · simp only []
        rw [hev2]
        simp
  · intro a ha
    obtain ⟨m, a', hm, heqEv⟩ := hall2 _ (List.mem_cons_of_mem _ ha)
    rw [show GEMINI_FALLBACK_MODELS = "gemini-1.5-flash".data :: ["gemini-1.5-pro".data]
      from rfl] at hm
    rcases List.mem_cons.mp hm with rfl | hm2
    · injection heqEv with hname _
      exact absurd hname (by decide)
    · rcases List.mem_singleton.mp hm2 with rfl
      injection heqEv with hname _
      exact absurd hname (by decide)

/-- Witness for C6: with a backend that always reports `NotFound`, the
recorded call trail starts with one primary-model attempt followed by
the first fallback model at attempt 0. -/
theorem config_error_advances_model_chain_witness :
    envConfigErr.apiKeySet = true ∧
    ∃ rest, (generate_comment_with_gemini envConfigErr "t".data "c".data [] [] [] 2
        PState.init).2.events =
      PState.init.events ++ Ev.genCall "gemini-2.0-flash".data 0 ::
        Ev.genCall "gemini-1.5-flash".data 0 :: rest ∧
      ∀ a, Ev.genCall "gemini-2.0-flash".data a ∉ rest :=
  ⟨rfl, config_error_advances_model_chain envConfigErr "t".data "c".data [] [] [] 2
    PState.init ⟨.notFound, "404 model not found".data⟩ rfl rfl rfl (by decide)⟩

/-- C9: the Fallback Synthesizer is a deterministic pure function —
calling it twice on identical `(title, content, keyPoints, contextIds)`
yields the same string — and it never fails: its output is a non-empty
comment.  It takes no backend environment and runs in no effect monad,
which in this embedding is the statement that it never calls a
generative model. -/
theorem fallback_synthesizer_deterministic_total (t c : Str) (kp ids : List Str) :
    generate_enhanced_fallback t c kp ids = generate_enhanced_fallback t c kp ids ∧
    generate_enhanced_fallback t c kp ids ≠ [] :=
  ⟨rfl, generate_enhanced_fallback_ne t c kp ids⟩

/-- Counterexample to C10 as stated: with `max_chunks = 0` the short-text
early return of `chunk_text` ignores the chunk bound and returns one
chunk, which is more than `max_chunks`. -/
theorem chunking_bound_fails_at_zero :
    chunk_text "ab".data 1000 150 0 = some ["ab".data] ∧
    ¬ (["ab".data].length ≤ 0) := by decide

/-- C10 (amended): for `chunk_chars = 1000`, `overlap = 150` and any
positive `max_chunks`, the chunking loop terminates (the fuelled loop
returns `some` within `text.length + 1` iterations), produces at most
`max_chunks` chunks, and every chunk is non-empty of length at most
1000. -/
theorem chunking_terminates_and_bounded (text : Str) (max_chunks : Nat)
    (hmax : 1 ≤ max_chunks) :
    ∃ cs, chunk_text text 1000 150 max_chunks = some cs ∧
      cs.length ≤ max_chunks ∧ ∀ ch ∈ cs, ch ≠ [] ∧ ch.length ≤ 1000 :=
  chunk_text_spec text max_chunks hmax

/-- Witness for C10 (amended): the caller's parameters (`max_chunks = 8`)
on a concrete text. -/
theorem chunking_terminates_and_bounded_witness :
    ∃ cs, chunk_text "hello world".data 1000 150 8 = some cs ∧
      cs.length ≤ 8 ∧ ∀ ch ∈ cs, ch ≠ [] ∧ ch.length ≤ 1000 :=
  chunking_terminates_and_bounded "hello world".data 8 (by decide)

/-- Counterexample to C8 as stated: a `search` with `k = 0` still loads
the index (cache miss and disk read) and issues one embedding call —
the Context Store is touched even though the empty list is returned. -/
theorem search_k0_touches_store :
    (search_by_name envIdx "q".data "docs".data 0 PState.init).1 = .ok [] ∧
    (search_by_name envIdx "q".data "docs".data 0 PState.init).2.events =
      [Ev.loadIndexCall "docs".data, Ev.diskLoad "docs".data, Ev.embedCall 1] :=
  ⟨rfl, rfl⟩

/-- C8 (amended): `search_by_name` is best-effort — it never propagates
an exception (every run returns `.ok`), and with `k = 0` it returns the
empty list; however it still invokes the index load and one embedding
call even when `k = 0` (see the counterexample). -/
theorem search_by_name_best_effort (env : Env) (q n : Str) (k : Nat) (s : PState) :
    (∃ l s', search_by_name env q n k s = (.ok l, s')) ∧
    (k = 0 → (search_by_name env q n k s).1 = .ok []) := by
  unfold search_by_name
  rcases hl : load_index env n s with ⟨rl, s1⟩
  rcases rl with e | ⟨vectors, meta⟩
  · simp only []
    exact ⟨⟨[], s1, rfl⟩, fun _ => trivial⟩
  · simp only []
    rcases he : embedder_embed env [q] 1 true s1 with ⟨re, s2⟩
    rcases re with e | qv
    · simp only []
      exact ⟨⟨[], s2, rfl⟩, fun _ => trivial⟩
    · simp only []
      refine ⟨⟨_, s2, rfl⟩, fun hk => ?_⟩
      subst hk
      simp

set_option maxRecDepth 4000 in
/-- Counterexample to C4 as stated: a degenerate admitted reddit post
(empty title, 301-character single-word content) drives the pipeline to
the Fallback Synthesizer, whose comment embeds the raw topic words and
exceeds `MAX_COMMENT_LENGTH = 800`, the platform comment-size maximum the
codebase configures. -/
theorem comment_exceeds_size_bound :
    (pyStrip postBigTopic.content).length ≤ MAX_CONTENT_LEN ∧
    MAX_COMMENT_LENGTH <
      okLength (generate_comment envNoKey postBigTopic 3 3 "success".data PState.init).1 := by
  decide

/-- C4 (amended): for every admitted post — including degenerate posts
with empty title and empty content — the pipeline produces exactly one
`CommentResult` and it is never the empty string.  (The size bound of
the original claim fails: see the counterexample.) -/
theorem admitted_post_yields_one_comment (env : Env) (post : NormalizedPost)
    (tks tkd : Nat) (fs : Str) (s : PState)
    (hadm : (pyStrip post.content).length ≤ MAX_CONTENT_LEN) :
    ∃ cm s', generate_comment env post tks tkd fs s = (.ok cm, s') ∧ cm ≠ [] :=
  generate_comment_ok env post tks tkd fs s hadm

set_option maxRecDepth 4000 in
/-- Witness for C4 (amended): the concrete admitted post of the
counterexample still yields exactly one non-empty comment. -/
theorem admitted_post_yields_one_comment_witness :
    (pyStrip postBigTopic.content).length ≤ MAX_CONTENT_LEN ∧
    ∃ cm s', generate_comment envNoKey postBigTopic 3 3 "success".data PState.init =
      (.ok cm, s') ∧ cm ≠ [] :=
  ⟨by decide, admitted_post_yields_one_comment envNoKey postBigTopic 3 3 "success".data
    PState.init (by decide)⟩

/-- C1: the claim fails in the code.  On a reddit URL whose fetched
content is 5001 characters (over `MAX_CONTENT_LEN = 5000`),
`generate_comment` does raise the HTTP-413 content-too-large exception,
but the endpoint handler's inner `except Exception` block (app.py line
213) catches `HTTPException` — a subclass of `Exception` — before the
outer `except HTTPException: raise` can re-raise it, and answers with a
200 response carrying the generic safe fallback.  The admission
rejection is therefore never surfaced to the caller, contradicting the
spec's propagation policy. -/
theorem endpoint_swallows_admission_rejection :
    (generate_comment envTooLong postTooLongFetched 3 3 "success".data PState.init).1 =
      .error contentTooLargeExc ∧
    contentTooLargeExc.kind = ExcKind.httpException 413 ∧
    generate_endpoint envTooLong reqTooLong PState.init =
      (.ok (generate_safe_fallback postTooLongFetched), PState.init) := by
  have h : MAX_CONTENT_LEN < (pyStrip postTooLongFetched.content).length := by
    rw [show postTooLongFetched.content = List.replicate 5001 'a' from rfl,
      pyStrip_replicate_a, List.length_replicate]
    decide
  have hgc : ∀ tks tkd fs, generate_comment envTooLong postTooLongFetched tks tkd fs
      PState.init = (.error contentTooLargeExc, PState.init) := by
    intro tks tkd fs
    unfold generate_comment
    simp only []
    rw [if_pos h]
  refine ⟨by rw [hgc], rfl, ?_⟩
  have hpost : endpointPost envTooLong reqTooLong = postTooLongFetched := by
    unfold endpointPost
    rw [show detect_platform reqTooLong.post_url = "reddit".data from by decide]
    rfl
  unfold generate_endpoint
  rw [if_neg (by decide : ¬(reqTooLong.source = "docs".data)), hpost, hgc]

/-- Witness for C8 (amended): concrete run with `k = 0`. -/
theorem search_by_name_best_effort_witness :
    (∃ l s', search_by_name envIdx "q".data "docs".data 0 PState.init = (.ok l, s')) ∧
    (0 = 0 → (search_by_name envIdx "q".data "docs".data 0 PState.init).1 = .ok []) :=
  search_by_name_best_effort envIdx "q".data "docs".data 0 PState.init

/-- Counterexample to C7 as stated: on a too-short draft the validator
reports the length failure but leaves `overlap_count = 0` and
`generic_phrases = []` in the returned details, even though the draft
shares three meaningful content words with the post and contains the
generic phrase `many developers encounter`: the overlap and
generic-phrase metrics are not computed once an earlier rule fails. -/
theorem validator_skips_late_metrics :
    (validate_comment_quality tooShortDraft "developers encounter challenges".data
      "interesting stuff happens".data).2.2.overlap_count = 0 ∧
    (validate_comment_quality tooShortDraft "developers encounter challenges".data
      "interesting stuff happens".data).2.2.generic_phrases = [] ∧
    overlapCount tooShortDraft "developers encounter challenges".data
      "interesting stuff happens".data = 3 ∧
    (check_generic_phrases tooShortDraft).2 = ["many developers encounter".data] := by
  decide

set_option maxHeartbeats 3200000 in
/-- C7 (amended): the Quality Validator is a deterministic pure function
of `(draft, post title, post content)`.  The length, sentence-count and
brand-mention metrics of the returned details are always computed; the
rules are evaluated in the fixed order length, sentence count, brand
mention, forbidden phrases, generic phrases, content-word overlap, and
the first failing rule is the reported failure reason.  The
generic-phrase and overlap metrics, however, are only recorded in the
details once every earlier rule has passed; on an earlier failure they
keep their initial `[]` / `0` values (see the counterexample). -/
theorem validator_rule_order (c t p : Str) :
    validate_comment_quality c t p = validate_comment_quality c t p ∧
    (validate_comment_quality c t p).2.2.length = c.length ∧
    (validate_comment_quality c t p).2.2.sentence_count = count_sentences c ∧
    (validate_comment_quality c t p).2.2.has_kilocode =
      containsSub (pyLower c) "kilocode".data ∧
    ((validate_comment_quality c t p).1 = true ↔
      (MIN_COMMENT_LENGTH ≤ c.length ∧ c.length ≤ MAX_COMMENT_LENGTH ∧
       MIN_SENTENCES ≤ count_sentences c ∧ count_sentences c ≤ MAX_SENTENCES ∧
       containsSub (pyLower c) "kilocode".data = true ∧
       check_forbidden_phrases c = true ∧
       (check_generic_phrases c).1 = true ∧
       2 ≤ overlapCount c t p)) ∧
    (c.length < MIN_COMMENT_LENGTH →
      (validate_comment_quality c t p).2.1 =
        "too_short length=".data ++ natStr c.length ++ " min=".data ++
          natStr MIN_COMMENT_LENGTH ∧
      (validate_comment_quality c t p).2.2.overlap_count = 0 ∧
      (validate_comment_quality c t p).2.2.generic_phrases = []) ∧
    (MIN_COMMENT_LENGTH ≤ c.length → MAX_COMMENT_LENGTH < c.length →
      (validate_comment_quality c t p).2.1 =
        "too_long length=".data ++ natStr c.length ++ " max=".data ++
          natStr MAX_COMMENT_LENGTH ∧
      (validate_comment_quality c t p).2.2.overlap_count = 0 ∧
      (validate_comment_quality c t p).2.2.generic_phrases = []) ∧
    (MIN_COMMENT_LENGTH ≤ c.length → c.length ≤ MAX_COMMENT_LENGTH →
     count_sentences c < MIN_SENTENCES →
      (validate_comment_quality c t p).2.1 =
        "too_few_sentences count=".data ++ natStr (count_sentences c) ++
          " min=".data ++ natStr MIN_SENTENCES ∧
      (validate_comment_quality c t p).2.2.overlap_count = 0 ∧
      (validate_comment_quality c t p).2.2.generic_phrases = []) ∧
    (MIN_COMMENT_LENGTH ≤ c.length → c.length ≤ MAX_COMMENT_LENGTH →
     MIN_SENTENCES ≤ count_sentences c → MAX_SENTENCES < count_sentences c →
      (validate_comment_quality c t p).2.1 =
        "too_many_sentences count=".data ++ natStr (count_sentences c) ++
          " max=".data ++ natStr MAX_SENTENCES ∧
      (validate_comment_quality c t p).2.2.overlap_count = 0 ∧
      (validate_comment_quality c t p).2.2.generic_phrases = []) ∧
    (MIN_COMMENT_LENGTH ≤ c.length → c.length ≤ MAX_COMMENT_LENGTH →
     MIN_SENTENCES ≤ count_sentences c → count_sentences c ≤ MAX_SENTENCES →
     containsSub (pyLower c) "kilocode".data = false →
      (validate_comment_quality c t p).2.1 = "no_kilocode_mention".data ∧
      (validate_comment_quality c t p).2.2.overlap_count = 0 ∧
      (validate_comment_quality c t p).2.2.generic_phrases = []) ∧
    (MIN_COMMENT_LENGTH ≤ c.length → c.length ≤ MAX_COMMENT_LENGTH →
     MIN_SENTENCES ≤ count_sentences c → count_sentences c ≤ MAX_SENTENCES →
     containsSub (pyLower c) "kilocode".data = true →
     check_forbidden_phrases c = false →
      (validate_comment_quality c t p).2.1 = "contains_forbidden_phrase".data ∧
      (validate_comment_quality c t p).2.2.overlap_count = 0 ∧
      (validate_comment_quality c t p).2.2.generic_phrases = []) ∧
    (MIN_COMMENT_LENGTH ≤ c.length → c.length ≤ MAX_COMMENT_LENGTH →
     MIN_SENTENCES ≤ count_sentences c → count_sentences c ≤ MAX_SENTENCES →
     containsSub (pyLower c) "kilocode".data = true →
     check_forbidden_phrases c = true → (check_generic_phrases c).1 = false →
      (validate_comment_quality c t p).2.1 =
        "contains_generic_phrases count=".data ++
          natStr (check_generic_phrases c).2.length ∧
      (validate_comment_quality c t p).2.2.overlap_count = 0 ∧
      (validate_comment_quality c t p).2.2.generic_phrases =
        (check_generic_phrases c).2) ∧
    (MIN_COMMENT_LENGTH ≤ c.length → c.length ≤ MAX_COMMENT_LENGTH →
     MIN_SENTENCES ≤ count_sentences c → count_sentences c ≤ MAX_SENTENCES →
     containsSub (pyLower c) "kilocode".data = true →
     check_forbidden_phrases c = true → (check_generic_phrases c).1 = true →
     overlapCount c t p < 2 →
      (validate_comment_quality c t p).2.1 =
        "insufficient_context_reference overlap=".data ++
          natStr (overlapCount c t p) ∧
      (validate_comment_quality c t p).2.2.overlap_count = overlapCount c t p ∧
      (validate_comment_quality c t p).2.2.generic_phrases =
        (check_generic_phrases c).2) ∧
    (MIN_COMMENT_LENGTH ≤ c.length → c.length ≤ MAX_COMMENT_LENGTH →
     MIN_SENTENCES ≤ count_sentences c → count_sentences c ≤ MAX_SENTENCES →
     containsSub (pyLower c) "kilocode".data = true →
     check_forbidden_phrases c = true → (check_generic_phrases c).1 = true →
     2 ≤ overlapCount c t p →
      (validate_comment_quality c t p).2.1 = "valid".data ∧
      (validate_comment_quality c t p).2.2.overlap_count = overlapCount c t p ∧
      (validate_comment_quality c t p).2.2.generic_phrases =
        (check_generic_phrases c).2) := by
  unfold validate_comment_quality
  simp only []
  split_ifs with h1 h2 h3 h4 h5 h6 h7 h8 <;>
    refine ⟨?_, ?_, ?_, ?_, ?_, ?_, ?_, ?_, ?_, ?_, ?_, ?_, ?_, ?_⟩ <;>
    first
      | trivial
      | (intros; exact ⟨rfl, rfl, rfl⟩)
      | (intros; exfalso; first | omega | (simp_all; done))
      | (refine ⟨fun hacc => absurd hacc (by decide), fun hall => ?_⟩
         obtain ⟨hP1, hP2, hP3, hP4, hP5, hP6, hP7, hP8⟩ := hall
         exfalso
         first | omega | (simp_all; done))
      | (refine ⟨fun hT => ⟨?_, ?_, ?_, ?_, ?_, ?_, ?_, ?_⟩, fun hC => rfl⟩ <;>
          first | omega | (simp_all; done))

end KilocodeSpec
